import Mathlib

/-!
# Verification of the Conversational BRD Section Resolver and Patch Engine

A shallow embedding, in Lean 4, of the chat-based document editing core of
this repository (`lambda_chat_package/lambda_brd_chat.py` and
`lambda_brd_generator.py`), together with theorems settling the specified
behaviours: the document-title pseudo-section heuristic, section-number to
array-index mapping, title resolution, the patch-commit verification, the
JSON-repair pipeline, the text-to-structure reconstructors, and the
conversation-log context tracking.

Python values are modelled as follows: `str` becomes `String` (the inputs in
question are ASCII, so `lower()`/`strip()` agree with their Lean analogues
written below); `dict`/`list` JSON-ish data becomes the `Json` inductive;
`None` becomes `Option.none`; functions that may raise become
`Option`/`Except` valued.  The regular expressions of the source are run
through a small backtracking engine (`Re`, `reMat`) that mirrors Python's
leftmost, preference-order backtracking semantics for the constructs the
source uses; each pattern is transcribed token by token next to its use.
-/

/-! ## Python string primitives -/

/-- Python `str` whitespace for the ASCII range (`" \t\n\r\x0b\x0c"`),
as tested by `str.strip()` and by `\s` in the source's regexes. -/
def pySpace (c : Char) : Bool :=
  c == ' ' || c == '\t' || c == '\n' || c == '\r' || c == '\x0b' || c == '\x0c'

/-- `\w` for the ASCII range: letters, digits, underscore. -/
def pyWordc (c : Char) : Bool :=
  c.isAlpha || c.isDigit || c == '_'

/-- `needle` occurs at the head of `hay`. -/
def leadsList : List Char → List Char → Bool
  | [], _ => true
  | _ :: _, [] => false
  | a :: as, b :: bs => a == b && leadsList as bs

/-- `needle` occurs somewhere in `hay` (Python's `needle in hay`;
the empty needle occurs in everything, as in Python). -/
def subList (n : List Char) : List Char → Bool
  | [] => n.isEmpty
  | c :: hs => leadsList n (c :: hs) || subList n hs

/-- Python `needle in hay` on strings. -/
def pyIn (needle hay : String) : Bool := subList needle.data hay.data

/-- Python `s.strip()` (ASCII whitespace). -/
def pyStrip (s : String) : String :=
  ⟨(s.data.dropWhile pySpace).reverse.dropWhile pySpace |>.reverse⟩

/-- Python `s.lower()` (the inputs in play are ASCII). -/
def pyLower (s : String) : String := ⟨s.data.map Char.toLower⟩

/-- Split on every occurrence of a single character, keeping empty parts
(Python `s.split(sep)`); `cur` holds the part in progress, reversed. -/
def splitCharAux (sep : Char) (cur : List Char) : List Char → List String
  | [] => [⟨cur.reverse⟩]
  | c :: cs =>
    if c == sep then (⟨cur.reverse⟩ : String) :: splitCharAux sep [] cs
    else splitCharAux sep (c :: cur) cs

/-- Python `s.split(sep)` for a one-character separator. -/
def pySplitChar (sep : Char) (s : String) : List String := splitCharAux sep [] s.data

/-- Python `s.startswith(p)`. -/
def pyStartsWith (p s : String) : Bool := leadsList p.data s.data

/-- Numeric value of a list of ASCII digits. -/
def digitsToNat (ds : List Char) : Nat :=
  ds.foldl (fun acc c => acc * 10 + (c.toNat - '0'.toNat)) 0

/-- After a leading digit run, the first non-digit character is a dot. -/
def dotAfterRun : List Char → Bool
  | [] => false
  | c :: cs => if c.isDigit then dotAfterRun cs else c == '.'

/-- Models Python `re.match(r'^\d+\.', s) is not None`: at least one leading
ASCII digit, and the character after the maximal leading digit run is `'.'`.
(Backtracking inside `\d+` cannot produce other matches, since a digit is
never a dot.) -/
def startsNumDot (s : String) : Bool :=
  match s.data with
  | [] => false
  | c :: cs => c.isDigit && dotAfterRun (c :: cs)

/-- Drop a leading digit run, then one dot, then any whitespace. Helper for
`stripNumDotPfx`; only called when `startsNumDot` holds. -/
def dropNumDot : List Char → List Char
  | [] => []
  | c :: cs => if c.isDigit then dropNumDot cs
               else if c == '.' then cs.dropWhile pySpace
               else c :: cs

/-- Models Python `re.sub(r'^\d+\.\s*', '', s)`: if the string starts with a
numeral-dot header, remove the digits, the dot, and the following whitespace;
otherwise leave it unchanged. -/
def stripNumDotPfx (s : String) : String :=
  if startsNumDot s then ⟨dropNumDot s.data⟩ else s

/-- One-pass splitter into maximal runs of `\w` characters; `cur` holds the
characters of the run in progress, reversed. -/
def wordRunsAux (cur : List Char) : List Char → List String
  | [] => if cur.isEmpty then [] else [⟨cur.reverse⟩]
  | c :: cs =>
    if pyWordc c then wordRunsAux (c :: cur) cs
    else if cur.isEmpty then wordRunsAux [] cs
    else (⟨cur.reverse⟩ : String) :: wordRunsAux [] cs

/-- Models `re.findall(r'\b\w+\b', s)`: the `\b` boundaries make each match
exactly a maximal word-character run. -/
def pyWords (s : String) : List String := wordRunsAux [] s.data

/-- Underscore-separated digit continuation for Python `int(s)`: digits with
single underscores between digits, nothing else. -/
def pyIntDigitsRest : List Char → Option (List Char)
  | [] => some []
  | c :: cs =>
    if c.isDigit then
      match pyIntDigitsRest cs with
      | some ds => some (c :: ds)
      | none => none
    else if c == '_' then
      match cs with
      | d :: _ =>
        if d.isDigit then
          match pyIntDigitsRest cs with
          | some ds => some ds
          | none => none
        else none
      | [] => none
    else none

/-- The digit body of `pyIntParse`: at least one digit, then `pyIntDigitsRest`. -/
def pyIntDigits : List Char → Option Nat
  | [] => none
  | c :: cs =>
    if c.isDigit then
      match cs with
      | [] => some (digitsToNat [c])
      | _ =>
        match pyIntDigitsRest cs with
        | some ds => some (digitsToNat (c :: ds))
        | none => none
    else none

/-- Python `int(s)` (`none` = `ValueError`). -/
def pyIntParse (s : String) : Option Int :=
  let t := (s.data.dropWhile pySpace).reverse.dropWhile pySpace |>.reverse
  match t with
  | '-' :: rest => (pyIntDigits rest).map (fun n => -(n : Int))
  | '+' :: rest => (pyIntDigits rest).map (fun n => (n : Int))
  | other => (pyIntDigits other).map (fun n => (n : Int))

/-- Python `s.replace(old, new)` for the one use in the source
(`line.replace('##', '')`): remove every occurrence of `"##"`. -/
def removeHashHash : List Char → List Char
  | '#' :: '#' :: rest => removeHashHash rest
  | c :: rest => c :: removeHashHash rest
  | [] => []

/-! ## A small backtracking regex engine

Mirrors Python `re` semantics (leftmost match, preference-order
backtracking, greedy/lazy quantifiers, last-assignment capture groups) for
the constructs the source's patterns use.  Each pattern of the source is
transcribed token by token at its point of use. -/

/-- The character classes occurring in the source's patterns (ASCII reading;
`litci` is a literal under `re.IGNORECASE`, stored lowercase). -/
inductive RCls where
  | lit (c : Char)
  | litci (c : Char)
  | digit
  | space
  | wordc
  | alphaSpace
  | notQuote
  | dotNoNl
  | dotAll

/-- Does a character belong to a class? -/
def RCls.test : RCls → Char → Bool
  | .lit a, c => c == a
  | .litci a, c => c.toLower == a
  | .digit, c => c.isDigit
  | .space, c => pySpace c
  | .wordc, c => pyWordc c
  | .alphaSpace, c => c.isAlpha || pySpace c
  | .notQuote, c => !(c == '\'' || c == '"')
  | .dotNoNl, c => !(c == '\n')
  | .dotAll, _ => true

/-- Regex abstract syntax: ε, single class, sequencing, ordered alternation,
counted repetition (`lo` to `hi`, greedy or lazy), capture group, and
end-of-input (Python `$`; the subject lines here never end in a newline, so
`$` is exactly end-of-input). -/
inductive Re where
  | eps
  | cls (k : RCls)
  | seq (a b : Re)
  | alt (a b : Re)
  | rep (a : Re) (lo : Nat) (hi : Option Nat) (lazy : Bool)
  | grp (i : Nat) (a : Re)
  | eos

/-- Sequence a list of regexes. -/
def Re.cat : List Re → Re
  | [] => .eps
  | [r] => r
  | r :: rs => .seq r (Re.cat rs)

/-- Case-sensitive literal string. -/
def Re.str (s : String) : Re := Re.cat (s.data.map (fun c => Re.cls (.lit c)))

/-- Literal string under `re.IGNORECASE` (give it in lowercase). -/
def Re.strci (s : String) : Re := Re.cat (s.data.map (fun c => Re.cls (.litci c)))

/-- Ordered alternation of a list (first alternative preferred, as in Python). -/
def Re.alts : List Re → Re
  | [] => .eps
  | [r] => r
  | r :: rs => .alt r (Re.alts rs)

/-- `r*` (greedy). -/
def Re.star (r : Re) : Re := .rep r 0 none false
/-- `r+` (greedy). -/
def Re.plus (r : Re) : Re := .rep r 1 none false
/-- `r?` (greedy). -/
def Re.opt (r : Re) : Re := .rep r 0 (some 1) false
/-- `r+?` (lazy). -/
def Re.plusLazy (r : Re) : Re := .rep r 1 none true
/-- `r*?` (lazy). -/
def Re.starLazy (r : Re) : Re := .rep r 0 none true

/-- Capture list: `(group, start, stop)` position triples, most recent first
(lookup takes the first hit, i.e. the last assignment, as in Python). -/
abbrev Caps := List (Nat × Nat × Nat)

/-- The backtracking matcher, in continuation-passing style.  `fuel` bounds
the total number of recursive calls (every call decreases it); all uses in
this file give fuel far above the exploration the concrete subjects need.
Alternatives and quantifiers are tried in Python's preference order; a
quantifier iteration that consumes nothing stops the iteration, as in
Python. -/
def reMat (fuel : Nat) (r : Re) (cs : List Char) (pos : Nat) (caps : Caps)
    (k : List Char → Nat → Caps → Option Caps) : Option Caps :=
  match fuel with
  | 0 => none
  | fuel + 1 =>
    match r with
    | .eps => k cs pos caps
    | .eos => match cs with
      | [] => k cs pos caps
      | _ :: _ => none
    | .cls kc =>
      match cs with
      | [] => none
      | c :: rest => if kc.test c then k rest (pos + 1) caps else none
    | .seq a b =>
      reMat fuel a cs pos caps (fun cs2 p2 caps2 => reMat fuel b cs2 p2 caps2 k)
    | .alt a b =>
      match reMat fuel a cs pos caps k with
      | some res => some res
      | none => reMat fuel b cs pos caps k
    | .grp i a =>
      reMat fuel a cs pos caps (fun cs2 p2 caps2 => k cs2 p2 ((i, pos, p2) :: caps2))
    | .rep a lo hi lazy =>
      match lo with
      | lo' + 1 =>
        reMat fuel a cs pos caps (fun cs2 p2 caps2 =>
          reMat fuel (.rep a lo' (hi.map (· - 1)) lazy) cs2 p2 caps2 k)
      | 0 =>
        match hi with
        | some 0 => k cs pos caps
        | _ =>
          if lazy then
            match k cs pos caps with
            | some res => some res
            | none =>
              reMat fuel a cs pos caps (fun cs2 p2 caps2 =>
                if p2 == pos then k cs2 p2 caps2
                else reMat fuel (.rep a 0 (hi.map (· - 1)) lazy) cs2 p2 caps2 k)
          else
            match reMat fuel a cs pos caps (fun cs2 p2 caps2 =>
                if p2 == pos then k cs2 p2 caps2
                else reMat fuel (.rep a 0 (hi.map (· - 1)) lazy) cs2 p2 caps2 k) with
            | some res => some res
            | none => k cs pos caps

/-- Fuel given to every match attempt in this file. -/
def reFuel : Nat := 400000

/-- `re.match(pattern, s)`: anchored at position 0.  On success the result
holds the capture triples, with group 0 covering the whole match. -/
def reMatch (r : Re) (s : String) : Option Caps :=
  reMat reFuel (.grp 0 r) s.data 0 [] (fun _ _ caps => some caps)

/-- Try an anchored match at each successive start position (Python
`re.search`: the leftmost starting position wins). -/
def reSearchAux (r : Re) : Nat → List Char → Nat → Option Caps
  | 0, _, _ => none
  | outer + 1, cs, pos =>
    match reMat reFuel (.grp 0 r) cs pos [] (fun _ _ caps => some caps) with
    | some caps => some caps
    | none =>
      match cs with
      | [] => none
      | _ :: rest => reSearchAux r outer rest (pos + 1)

/-- `re.search(pattern, s)`. -/
def reSearch (r : Re) (s : String) : Option Caps :=
  reSearchAux r (s.data.length + 1) s.data 0

/-- The span of capture group `i` (most recent assignment). -/
def capSpan (caps : Caps) (i : Nat) : Option (Nat × Nat) :=
  match caps.find? (fun t => t.1 == i) with
  | some (_, a, b) => some (a, b)
  | none => none

/-- The text of capture group `i` of a match on subject `s`. -/
def capStr (s : String) (caps : Caps) (i : Nat) : String :=
  match capSpan caps i with
  | some (a, b) => ⟨(s.data.drop a).take (b - a)⟩
  | none => ""

/-! ## JSON values and a position-reporting parser

Models CPython's `json.loads` / `JSONDecoder.raw_decode` closely enough to
reproduce success, failure, and the failure *offset* (`JSONDecodeError.pos`),
which the repair pipeline of `convert_brd_text_to_json` branches on.
Numeric literals are kept verbatim (none of the behaviours proved here
computes with numbers). -/

/-- A JSON value / Python dict-list data. -/
inductive Json where
  | null
  | bool (b : Bool)
  | num (raw : String)
  | str (s : String)
  | arr (items : List Json)
  | obj (fields : List (String × Json))

/-- JSON whitespace (`json.decoder.WHITESPACE`): space, tab, newline, CR. -/
def jWs (c : Char) : Bool :=
  c == ' ' || c == '\t' || c == '\n' || c == '\r'

/-- Skip JSON whitespace, keeping the character list and offset in sync. -/
def jSkipWs : List Char → Nat → List Char × Nat
  | c :: cs, i => if jWs c then jSkipWs cs (i + 1) else (c :: cs, i)
  | [], i => ([], i)

/-- Decode one string-escape character (the character after a backslash),
per `json.decoder.BACKSLASH`. -/
def jEsc : Char → Option Char
  | '"' => some '"'
  | '\\' => some '\\'
  | '/' => some '/'
  | 'b' => some '\x08'
  | 'f' => some '\x0c'
  | 'n' => some '\n'
  | 'r' => some '\r'
  | 't' => some '\t'
  | _ => none

/-- Scan a JSON string body after the opening quote.  `start` is the offset
of the opening quote (CPython reports unterminated strings there); `\uXXXX`
escapes are not needed by any input in this file and are treated as invalid
escapes, as is every other unknown escape. -/
def jStr (acc : List Char) (start : Nat) : List Char → Nat → Except Nat (String × List Char × Nat)
  | [], _ => .error start
  | '"' :: rest, i => .ok (⟨acc.reverse⟩, rest, i + 1)
  | '\\' :: rest, i =>
    match rest with
    | [] => .error i
    | e :: rest2 =>
      match jEsc e with
      | some c => jStr (c :: acc) start rest2 (i + 2)
      | none => .error i
  | c :: rest, i => jStr (c :: acc) start rest (i + 1)

/-- Scan a JSON numeric literal (CPython's `NUMBER_RE`): optional minus,
`0` or a nonzero-led digit run, optional fraction, optional exponent.
Returns the verbatim literal.  Errors with `Expecting value` at the start
offset when the minus is not followed by a digit. -/
def jNum (cs : List Char) (i : Nat) : Except Nat (String × List Char × Nat) :=
  let (sign, cs1, i1) : List Char × List Char × Nat :=
    match cs with
    | '-' :: rest => (['-'], rest, i + 1)
    | _ => ([], cs, i)
  match cs1 with
  | c :: _ =>
    if c.isDigit then
      let intPart : List Char :=
        if c == '0' then ['0'] else cs1.takeWhile Char.isDigit
      let cs2 := cs1.drop intPart.length
      let i2 := i1 + intPart.length
      let (frac, cs3, i3) : List Char × List Char × Nat :=
        match cs2 with
        | '.' :: d :: rest =>
          if d.isDigit then
            let ds := (d :: rest).takeWhile Char.isDigit
            ('.' :: ds, (d :: rest).drop ds.length, i2 + 1 + ds.length)
          else ([], cs2, i2)
        | _ => ([], cs2, i2)
      let (ex, cs4, i4) : List Char × List Char × Nat :=
        match cs3 with
        | e :: rest =>
          if e == 'e' || e == 'E' then
            let (sgn, rest2, used) : List Char × List Char × Nat :=
              match rest with
              | s :: r2 => if s == '+' || s == '-' then ([s], r2, 1) else ([], rest, 0)
              | [] => ([], [], 0)
            match rest2 with
            | d :: _ =>
              if d.isDigit then
                let ds := rest2.takeWhile Char.isDigit
                (e :: sgn ++ ds, rest2.drop ds.length, i3 + 1 + used + ds.length)
              else ([], cs3, i3)
            | [] => ([], cs3, i3)
          else ([], cs3, i3)
        | [] => ([], cs3, i3)
      .ok (⟨sign ++ intPart ++ frac ++ ex⟩, cs4, i4)
    else .error i
  | [] => .error i

mutual

/-- Scan one JSON value at offset `i` (CPython `scan_once`).  The error
offset is where CPython's `JSONDecodeError.pos` points for the same
input. -/
def jScan (fuel : Nat) (cs : List Char) (i : Nat) : Except Nat (Json × List Char × Nat) :=
  match fuel with
  | 0 => .error i
  | fuel + 1 =>
    match cs with
    | [] => .error i
    | '"' :: rest => (jStr [] i rest (i + 1)).map (fun (s, r, j) => (.str s, r, j))
    | '{' :: rest =>
      let (cs1, i1) := jSkipWs rest (i + 1)
      match cs1 with
      | '}' :: r2 => .ok (.obj [], r2, i1 + 1)
      | '"' :: r2 =>
        match jStr [] i1 r2 (i1 + 1) with
        | .error e => .error e
        | .ok (key, r3, i3) => jObjRest fuel [] key r3 i3
      | _ => .error i1
    | '[' :: rest =>
      let (cs1, i1) := jSkipWs rest (i + 1)
      match cs1 with
      | ']' :: r2 => .ok (.arr [], r2, i1 + 1)
      | _ =>
        match jScan fuel cs1 i1 with
        | .error e => .error e
        | .ok (v, r2, i2) => jArrRest fuel [v] r2 i2
    | 't' :: rest =>
      if leadsList ['r', 'u', 'e'] rest then .ok (.bool true, rest.drop 3, i + 4)
      else .error i
    | 'f' :: rest =>
      if leadsList ['a', 'l', 's', 'e'] rest then .ok (.bool false, rest.drop 4, i + 5)
      else .error i
    | 'n' :: rest =>
      if leadsList ['u', 'l', 'l'] rest then .ok (.null, rest.drop 3, i + 4)
      else .error i
    | c :: _ =>
      if c == '-' || c.isDigit then (jNum cs i).map (fun (s, r, j) => (.num s, r, j))
      else .error i

/-- After one parsed member (fields so far reversed in `accRev`, the last
key just read in `key`): parse `: value`, then a `,`-separated continuation
or the closing brace. -/
def jObjRest (fuel : Nat) (accRev : List (String × Json)) (key : String)
    (cs : List Char) (i : Nat) : Except Nat (Json × List Char × Nat) :=
  match fuel with
  | 0 => .error i
  | fuel + 1 =>
    let (cs1, i1) := jSkipWs cs i
    match cs1 with
    | ':' :: r2 =>
      let (cs2, i2) := jSkipWs r2 (i1 + 1)
      match jScan fuel cs2 i2 with
      | .error e => .error e
      | .ok (v, r3, i3) =>
        let (cs4, i4) := jSkipWs r3 i3
        match cs4 with
        | '}' :: r5 => .ok (.obj ((key, v) :: accRev).reverse, r5, i4 + 1)
        | ',' :: r5 =>
          let (cs6, i6) := jSkipWs r5 (i4 + 1)
          match cs6 with
          | '"' :: r7 =>
            match jStr [] i6 r7 (i6 + 1) with
            | .error e => .error e
            | .ok (key2, r8, i8) => jObjRest fuel ((key, v) :: accRev) key2 r8 i8
          | _ => .error i6
        | _ => .error i4
    | _ => .error i1

/-- After one parsed array item (items so far reversed in `accRev`): parse a
`,`-separated continuation or the closing bracket. -/
def jArrRest (fuel : Nat) (accRev : List Json) (cs : List Char) (i : Nat) :
    Except Nat (Json × List Char × Nat) :=
  match fuel with
  | 0 => .error i
  | fuel + 1 =>
    let (cs1, i1) := jSkipWs cs i
    match cs1 with
    | ']' :: r2 => .ok (.arr accRev.reverse, r2, i1 + 1)
    | ',' :: r2 =>
      let (cs2, i2) := jSkipWs r2 (i1 + 1)
      match jScan fuel cs2 i2 with
      | .error e => .error e
      | .ok (v, r3, i3) => jArrRest fuel (v :: accRev) r3 i3
    | _ => .error i1

end

/-- Parser fuel; far above the nesting any input in this file reaches. -/
def jFuel : Nat := 100000

/-- CPython `json.loads(s)`: skip leading whitespace, scan one value, skip
trailing whitespace, and demand end of input (`Extra data` otherwise).  The
`Nat` error is `JSONDecodeError.pos`. -/
def pyJsonLoads (s : String) : Except Nat Json :=
  let (cs, i) := jSkipWs s.data 0
  match jScan jFuel cs i with
  | .error e => .error e
  | .ok (v, rest, j) =>
    let (rest2, j2) := jSkipWs rest j
    match rest2 with
    | [] => .ok v
    | _ => .error j2

/-- CPython `json.JSONDecoder().raw_decode(s)`: scan one value starting at
offset 0 (no leading-whitespace skip), ignore anything after it. -/
def pyRawDecode (s : String) : Except Nat Json :=
  match jScan jFuel s.data 0 with
  | .error e => .error e
  | .ok (v, _, _) => .ok v

/-! ## Dict / list accessors and serialization -/

/-- Python `d.get(key, default)`.  The source only calls `.get` on dicts;
on a non-dict the default is returned here (those paths are never exercised
by the theorems below). -/
def jGetD (j : Json) (key : String) (d : Json) : Json :=
  match j with
  | .obj fields =>
    match fields.find? (fun f => f.1 == key) with
    | some f => f.2
    | none => d
  | _ => d

/-- `d.get(key, "")` followed by use as a string (the source immediately
applies string operations; every input in play stores a string there). -/
def jGetStrD (j : Json) (key : String) (d : String) : String :=
  match jGetD j key (.str d) with
  | .str s => s
  | _ => d

/-- `d.get(key, [])` followed by use as a list. -/
def jGetArrD (j : Json) (key : String) : List Json :=
  match jGetD j key (.arr []) with
  | .arr items => items
  | _ => []

/-- Python `key in d` for a dict. -/
def jHasKey (j : Json) (key : String) : Bool :=
  match j with
  | .obj fields => fields.any (fun f => f.1 == key)
  | _ => false

/-- Python `d[key] = v`: replace the value in place if the key exists,
append the member otherwise (insertion order preserved). -/
def jSetFields (key : String) (v : Json) : List (String × Json) → List (String × Json)
  | [] => [(key, v)]
  | f :: fs => if f.1 == key then (key, v) :: fs else f :: jSetFields key v fs

/-- Python `d[key] = v` on a dict (identity on non-dicts, never exercised). -/
def jSet (j : Json) (key : String) (v : Json) : Json :=
  match j with
  | .obj fields => .obj (jSetFields key v fields)
  | _ => j

/-- Python truthiness of a JSON-ish value (`if not structured: ...`). -/
def jTruthy : Json → Bool
  | .null => false
  | .bool b => b
  | .num raw => !(raw == "0" || raw == "-0" || raw == "0.0")
  | .str s => !(s == "")
  | .arr items => !items.isEmpty
  | .obj fields => !fields.isEmpty

/-- Escape a string for serialization. -/
def jserStr (s : String) : String :=
  "\"" ++ ⟨s.data.flatMap (fun c =>
    if c == '"' then ['\\', '"']
    else if c == '\\' then ['\\', '\\'] else [c])⟩ ++ "\""

mutual

/-- Compact JSON serialization (the "serialized form" of a Document). -/
def jser : Json → String
  | .null => "null"
  | .bool true => "true"
  | .bool false => "false"
  | .num raw => raw
  | .str s => jserStr s
  | .arr items => "[" ++ jserList items ++ "]"
  | .obj fields => "\x7b" ++ jserFields fields ++ "\x7d"

/-- Serialize array items, comma-separated. -/
def jserList : List Json → String
  | [] => ""
  | [v] => jser v
  | v :: vs => jser v ++ "," ++ jserList vs

/-- Serialize object members, comma-separated. -/
def jserFields : List (String × Json) → String
  | [] => ""
  | [(k, v)] => jserStr k ++ ":" ++ jser v
  | (k, v) :: fs => jserStr k ++ ":" ++ jser v ++ "," ++ jserFields fs

end

/-! ## The JSON-repair pipeline of `convert_brd_text_to_json`
(`lambda_chat_package/lambda_brd_chat.py` lines 562-681) -/

/-- Models `re.sub(r',\s*([}\]])', r'\1', s)` (line 578): delete every comma
that is followed (across whitespace) by a closing brace or bracket, together
with that whitespace.  Fuel is the input length; every step consumes at
least one character. -/
def stripTcAux : Nat → List Char → List Char
  | 0, cs => cs
  | _ + 1, [] => []
  | fuel + 1, c :: rest =>
    if c == ',' then
      match rest.dropWhile pySpace with
      | b :: tail =>
        if b == '}' || b == ']' then b :: stripTcAux fuel tail
        else c :: stripTcAux fuel rest
      | [] => c :: stripTcAux fuel rest
    else c :: stripTcAux fuel rest

/-- `re.sub(r',\s*([}\]])', r'\1', s)`. -/
def stripTrailingCommas (s : String) : String := ⟨stripTcAux s.data.length s.data⟩

/-- Lines 585-609: if `count('{') > count('}')`, append that many `'}'`,
then (still inside that branch) if `count('[') > count(']')` on the result,
append that many `']'`.  The `rfind('{')` guard always holds in that branch
(there is at least one unmatched `'{'`), and the inner line scan computes
nothing that is used, so both are omitted. -/
def balanceAppend (fixedJson : String) : String :=
  let openB := fixedJson.data.count '{'
  let closeB := fixedJson.data.count '}'
  if openB > closeB then
    let f := fixedJson ++ ⟨List.replicate (openB - closeB) '}'⟩
    let openK := f.data.count '['
    let closeK := f.data.count ']'
    if openK > closeK then f ++ ⟨List.replicate (openK - closeK) ']'⟩ else f
  else fixedJson

/-- Lines 632-641: `for i in range(error_pos, search_start, -1)`, find the
first `i` (descending, stopping before `search_start`) where the character
is `'}'` or `']'` and the prefix ending there is brace- and
bracket-balanced; the cut point is `i + 1`. -/
def findSafeCutAux : Nat → List Char → Nat → Nat → Option Nat
  | 0, _, _, _ => none
  | fuel + 1, cs, i, stop =>
    if i ≤ stop then none
    else
      let c := cs.getD i ' '
      let pfx := cs.take (i + 1)
      if (c == '}' || c == ']') && pfx.count '{' == pfx.count '}' &&
          pfx.count '[' == pfx.count ']' then some (i + 1)
      else findSafeCutAux fuel cs (i - 1) stop

/-- Lines 562-674 (the parse-and-repair portion of
`convert_brd_text_to_json`, as a function of the extracted candidate
`json_str`): direct `json.loads`; `raw_decode`; trailing-comma strip plus
brace/bracket balance append, re-parse; then the truncation-safe cut, which
requires the new parse error's offset to be *less than the length of the
original candidate* and searches the original candidate for a balanced cut point.
`none` models the `RuntimeError` raised after all strategies fail. -/
def parseWithRepairPipeline (jsonStr : String) : Option Json :=
  match pyJsonLoads jsonStr with
  | .ok v => some v
  | .error _ =>
    match pyRawDecode jsonStr with
    | .ok v => some v
    | .error _ =>
      let fixedJson := balanceAppend (stripTrailingCommas jsonStr)
      match pyJsonLoads fixedJson with
      | .ok v => some v
      | .error e3pos =>
        if e3pos < jsonStr.length then
          let searchStart := e3pos - 1000
          match findSafeCutAux (e3pos + 1) jsonStr.data e3pos searchStart with
          | some safeCut =>
            let truncated := jsonStr.data.take safeCut
            let openB := truncated.count '{' - truncated.count '}'
            let openK := truncated.count '[' - truncated.count ']'
            let closed : String := ⟨truncated ++ List.replicate openK ']' ++ List.replicate openB '}'⟩
            match pyJsonLoads closed with
            | .ok v => some v
            | .error _ => none
          | none => none
        else none

/-- Lines 676-678: the converted structure must be truthy, contain key
`"sections"`, and map it to a list; otherwise `convert_brd_text_to_json`
raises. -/
def convertedStructure (jsonStr : String) : Option Json :=
  match parseWithRepairPipeline jsonStr with
  | none => none
  | some v =>
    if !jTruthy v || !jHasKey v "sections" then none
    else
      match jGetD v "sections" Json.null with
      | .arr _ => some v
      | _ => none

/-! ## Chat commands (`lambda_brd_chat.py` lines 828-1310) -/

/-- The document-title pseudo-section heuristic, repeated verbatim at lines
852-858 (`_find_section_by_title_or_number`), 929-934
(`handle_show_section`), 989-994 (`handle_update_section`) and 2172-2177:
the first section is a document title when its lowered title contains
`"ai-powered"` or `"brd"`, or is shorter than 30 characters and does not
start with a `N.` numeral prefix. -/
def hasDocTitle (sections : List Json) : Bool :=
  match sections with
  | [] => false
  | s0 :: _ =>
    let firstTitle := pyLower (jGetStrD s0 "title" "")
    pyIn "ai-powered" firstTitle || pyIn "brd" firstTitle ||
      (decide (firstTitle.length < 30) && !startsNumDot firstTitle)

/-- The invalid-section message of lines 947, 1012 and 1020. -/
def invalidSectionMsg (maxSection : Nat) : String :=
  "Invalid section number. Please choose 1-" ++ toString maxSection

/-- `block.get("type") == t`. -/
def jTypeIs (b : Json) (t : String) : Bool :=
  match jGetD b "type" Json.null with
  | .str s => s == t
  | _ => false

/-- Python `str(x)` as used on bullet items and table cells; every input in
play is already a string (the serialization is a stand-in for Python's
`str()` on the never-exercised non-string case). -/
def pyStrOf : Json → String
  | .str s => s
  | j => jser j

/-- The cells of one table row (`for cell in row`; rows are lists). -/
def jRowCells : Json → List Json
  | .arr cells => cells
  | _ => []

/-- Lines 961-973: render one content block of `handle_show_section`. -/
def renderBlock (b : Json) : String :=
  if jTypeIs b "paragraph" then jGetStrD b "text" "" ++ "\n\n"
  else if jTypeIs b "bullet" then
    String.join ((jGetArrD b "items").map (fun it => "- " ++ pyStrOf it ++ "\n")) ++ "\n"
  else if jTypeIs b "table" then
    String.join ((jGetArrD b "rows").map (fun row =>
      "| " ++ String.intercalate " | " ((jRowCells row).map pyStrOf) ++ " |\n")) ++ "\n"
  else ""

/-- The rendering of a shown section (lines 949-975): numbered heading from
the prefix-stripped title, then the rendered content blocks. -/
def renderShownSection (sectionNumber : Nat) (sec : Json) : String :=
  "## " ++ toString sectionNumber ++ ". " ++
    pyStrip (stripNumDotPfx (jGetStrD sec "title" "Untitled")) ++ "\n\n" ++
    String.join ((jGetArrD sec "content").map renderBlock)

/-- `handle_show_section` (lines 924-975): map the user-visible section
number to an array index through the document-title heuristic, reject
out-of-range numbers, and render the selected section. -/
def handleShowSection (brd : Json) (sectionNumber : Nat) : String :=
  let sections := jGetArrD brd "sections"
  let hdt := hasDocTitle sections
  let arrayIndex := if hdt then sectionNumber else sectionNumber - 1
  let maxSection := if hdt then sections.length - 1 else sections.length
  if sectionNumber < 1 || sectionNumber > maxSection then invalidSectionMsg maxSection
  else renderShownSection sectionNumber (sections.getD arrayIndex Json.null)

/-- Lines 884-907: the per-section rules of the title search, in the code's
order (exact; containment either way; cleaned-title equality or
containment; keyword subset; reverse keyword on stored-title words longer
than 3 characters).  Each rule returns the same section number, so they
collapse to a disjunction. -/
def matchRulesTitle (identLower : String) (title0 : String) : Bool :=
  let title := pyLower title0
  let titleClean := pyStrip (stripNumDotPfx title)
  let titleWords := pyWords titleClean
  let identWords := pyWords identLower
  (title == identLower) ||
  (pyIn identLower title || pyIn title identLower) ||
  (titleClean == identLower || pyIn identLower titleClean) ||
  (!identWords.isEmpty && identWords.all (fun w => titleWords.contains w)) ||
  (!titleWords.isEmpty && titleWords.any (fun tw => tw.length > 3 && pyIn tw identLower))

/-- The `for idx in range(start_idx, len(sections))` loop of lines 863-907,
including the (unreachable, since `start_idx` already skips it) guard that
re-skips index 0 under a document title. -/
def findTitleAux (identLower : String) (hdt : Bool) : List Json → Nat → Option Nat
  | [], _ => none
  | sec :: rest, idx =>
    if idx == 0 && hdt then findTitleAux identLower hdt rest (idx + 1)
    else
      let secNum := if hdt then idx else idx + 1
      if matchRulesTitle identLower (jGetStrD sec "title" "") then some secNum
      else findTitleAux identLower hdt rest (idx + 1)

/-- `_find_section_by_title_or_number` (lines 828-909): try the identifier
as an in-range integer first; otherwise lower-case and strip it and scan
the non-title sections in document order with `matchRulesTitle`, returning
the user-visible section number (the array index itself under a document
title, the index plus one otherwise). -/
def findSectionByTitleOrNumber (brd : Json) (identifier : String) : Option Nat :=
  let sections := jGetArrD brd "sections"
  let numericHit : Option Nat :=
    match pyIntParse identifier with
    | some n => if 1 ≤ n && n ≤ (sections.length : Int) then some n.toNat else none
    | none => none
  match numericHit with
  | some n => some n
  | none =>
    let identLower := pyStrip (pyLower identifier)
    let hdt := hasDocTitle sections
    let startIdx := if hdt then 1 else 0
    findTitleAux identLower hdt (sections.drop startIdx) startIdx

/-- The result of `handle_update_section`: the `success` flag, the user
message, and the `updated_brd` entry (present exactly on success). -/
structure UpdateResult where
  success : Bool
  message : String
  updatedBrd : Option Json

/-- `re.search(r'\{.*\}', s, re.DOTALL)` (line 1204): leftmost start is the
first opening brace, greedy `.*` ends at the last closing brace, which must
come after it. -/
def extractBraceSpan (s : String) : Option String :=
  let cs := s.data
  match cs.findIdx? (fun c => c == '{'), cs.reverse.findIdx? (fun c => c == '}') with
  | some i, some rj =>
    let j := cs.length - 1 - rj
    if i < j then some ⟨(cs.drop i).take (j + 1 - i)⟩ else none
  | _, _ => none

/-- Python `key in value` as at line 1225: dict key membership, list element
membership, substring on strings; other values raise `TypeError` (`none`),
which the enclosing `except` turns into the generic update failure. -/
def pyInJson (key : String) (j : Json) : Option Bool :=
  match j with
  | .obj fields => some (fields.any (fun f => f.1 == key))
  | .arr items => some (items.any (fun it =>
      match it with
      | .str s => s == key
      | _ => false))
  | .str s => some (pyIn key s)
  | _ => none

/-- Lines 1267-1277: scan `enumerate(sections, start=1)` for a section whose
cleaned, lowered title equals the returned title exactly. -/
def wrongSectionHit (returnedLower : String) : List Json → Nat → Option Nat
  | [], _ => none
  | sec :: rest, idx =>
    let secTitleClean := pyLower (pyStrip (stripNumDotPfx (jGetStrD sec "title" "")))
    if returnedLower == secTitleClean then some idx
    else wrongSectionHit returnedLower rest (idx + 1)

/-- The body of `handle_update_section` past the range check (lines
1024-1310), as a function of the already-computed array index.  The
generation prompt built from the target section and the user instruction
goes to the external model; `rawResponse` stands for the model's reply.
Mirrors the source exactly, including the behaviour at lines 1261-1303:
when the returned title does not fuzzy-match the expected title, the
commit is rejected only if some section's cleaned title equals the
returned title exactly — otherwise control falls through and the update is
committed anyway.  (The message texts of the two never-exercised
`TypeError`/`AttributeError` branches abbreviate Python's interpolated
exception text.) -/
def applyModelPatch (brd : Json) (sections : List Json) (arrayIndex sectionNumber : Nat)
    (rawResponse : String) : UpdateResult :=
    let sec := sections.getD arrayIndex Json.null
    match extractBraceSpan rawResponse with
    | none =>
      { success := false, message := "Failed to parse JSON response from AI", updatedBrd := none }
    | some jsonStr =>
      let parsed : Option Json :=
        match pyJsonLoads jsonStr with
        | .ok v => some v
        | .error _ =>
          match pyRawDecode jsonStr with
          | .ok v => some v
          | .error _ => none
      match parsed with
      | none =>
        { success := false, message := "Failed to parse JSON response from AI", updatedBrd := none }
      | some updatedSection =>
        match pyInJson "title" updatedSection, pyInJson "content" updatedSection with
        | none, _ =>
          { success := false, message := "Update failed: TypeError", updatedBrd := none }
        | some true, none =>
          { success := false, message := "Update failed: TypeError", updatedBrd := none }
        | some false, _ =>
          { success := false, message := "Invalid section structure in AI response", updatedBrd := none }
        | some true, some false =>
          { success := false, message := "Invalid section structure in AI response", updatedBrd := none }
        | some true, some true =>
          match updatedSection with
          | .obj _ =>
            let returnedTitleClean := pyStrip (stripNumDotPfx (jGetStrD updatedSection "title" ""))
            let expectedTitleClean := pyStrip (stripNumDotPfx (jGetStrD sec "title" ""))
            let returnedTitleLower := pyLower returnedTitleClean
            let expectedTitleLower := pyLower expectedTitleClean
            let titlesMatch := returnedTitleLower == expectedTitleLower ||
              pyIn returnedTitleLower expectedTitleLower ||
              pyIn expectedTitleLower returnedTitleLower
            match (if titlesMatch then none else wrongSectionHit returnedTitleLower sections 1) with
            | some idx =>
              { success := false
                message := "Error: AI updated section #" ++ toString idx ++ " (\x27" ++
                  returnedTitleClean ++ "\x27) instead of section #" ++ toString sectionNumber ++
                  " (\x27" ++ expectedTitleClean ++ "\x27). Please try again with explicit section number."
                updatedBrd := none }
            | none =>
              let updatedSection2 := jSet updatedSection "title" (.str expectedTitleClean)
              let newSections := sections.set arrayIndex updatedSection2
              let newBrd := jSet brd "sections" (.arr newSections)
              { success := true
                message := "✅ Section \x27" ++ toString sectionNumber ++ ". " ++
                  expectedTitleClean ++ "\x27 updated successfully"
                updatedBrd := some newBrd }
          | _ =>
            { success := false, message := "Update failed: AttributeError", updatedBrd := none }

/-- `handle_update_section` (lines 977-1310): compute the array index and
the valid range through the document-title heuristic, reject out-of-range
numbers, and hand the rest to `applyModelPatch`. -/
def handleUpdateSection (brd : Json) (sectionNumber : Nat) (_userInstruction : String)
    (rawResponse : String) : UpdateResult :=
  let sections := jGetArrD brd "sections"
  let hdt := hasDocTitle sections
  let arrayIndex := if hdt then sectionNumber else sectionNumber - 1
  let invalid :=
    if hdt then sectionNumber < 1 || sectionNumber ≥ sections.length
    else sectionNumber < 1 || sectionNumber > sections.length
  if invalid then
    { success := false
      message := invalidSectionMsg (if hdt then sections.length - 1 else sections.length)
      updatedBrd := none }
  else applyModelPatch brd sections arrayIndex sectionNumber rawResponse

/-! ## Text-to-structure reconstructors

Typed view of the blocks the reconstructors build: they emit only the
fixed dict shapes `\x7b"type":"paragraph","text":t\x7d`,
`\x7b"type":"bullet","items":[...]\x7d` and
`\x7b"type":"table","rows":[[...]]\x7d`. -/

/-- A reconstructed content block. -/
inductive GBlock where
  | para (text : String)
  | bullet (items : List String)
  | table (rows : List (List String))
deriving DecidableEq

/-- A reconstructed section. -/
structure GSection where
  title : String
  content : List GBlock
deriving DecidableEq

/-- A reconstructed document (`\x7b"sections": [...]\x7d`). -/
structure GDoc where
  sections : List GSection
deriving DecidableEq

/-- The loop state shared by both reconstructors: finished sections, the
open section, and the pending paragraph lines. -/
structure GState where
  sections : List GSection
  cur : Option GSection
  curContent : List String
deriving DecidableEq

/-- Append the pending paragraph lines (if any) to a section:
`'\n'.join(current_content).strip()` as one paragraph block. -/
def flushPara (sec : GSection) (curContent : List String) : GSection :=
  if curContent.isEmpty then sec
  else { sec with content := sec.content ++ [GBlock.para (pyStrip (String.intercalate "\n" curContent))] }

/-- Close the open section (with its pending paragraph) and open a new one. -/
def startNewSection (st : GState) (title : String) : GState :=
  let secs :=
    match st.cur with
    | some c => st.sections ++ [flushPara c st.curContent]
    | none => st.sections
  { sections := secs, cur := some ⟨title, []⟩, curContent := [] }

/-- `^(?:SECTION\s+)?(\d+)\.?\s*(.+)$` with `re.IGNORECASE`
(`lambda_brd_generator.py` line 95), transcribed token by token. -/
def genHeaderRe : Re := Re.cat [
  Re.opt (Re.cat [Re.strci "section", Re.plus (.cls .space)]),
  Re.grp 1 (Re.plus (.cls .digit)),
  Re.opt (.cls (.lit '.')),
  Re.star (.cls .space),
  Re.grp 2 (Re.plus (.cls .dotNoNl)),
  Re.eos]

/-- `re.match` of `genHeaderRe`: the captured number and the trailing text. -/
def genHeaderMatch (line : String) : Option (Nat × String) :=
  match reMatch genHeaderRe line with
  | some caps => some (digitsToNat (capStr line caps 1).data, capStr line caps 2)
  | none => none

/-- Lines 138-185 of `_convert_brd_text_to_structure`: a non-header line
inside an open section becomes a table row (two or more non-empty cells
split on `|` or tab), a bullet item, or a pending paragraph line. -/
def gContentLine (st : GState) (c : GSection) (line : String) : GState :=
  let isTableCand := pyIn "|" line || pyIn "\t" line
  let cells :=
    (if pyIn "|" line then pySplitChar '|' line else pySplitChar '\t' line).map pyStrip
      |>.filter (fun s => !(s == ""))
  if isTableCand && !cells.isEmpty && cells.length > 1 then
    match c.content.getLast? with
    | some (GBlock.table rows) =>
      { st with cur := some { c with content := c.content.dropLast ++ [GBlock.table (rows ++ [cells])] } }
    | _ =>
      let c2 := flushPara c st.curContent
      { st with cur := some { c2 with content := c2.content ++ [GBlock.table [cells]] }, curContent := [] }
  else if pyStartsWith "- " line || pyStartsWith "• " line || pyStartsWith "* " line then
    let bulletText : String := ⟨(line.data.drop 1).dropWhile pySpace⟩
    match c.content.getLast? with
    | some (GBlock.bullet items) =>
      { st with cur := some { c with content := c.content.dropLast ++ [GBlock.bullet (items ++ [bulletText])] } }
    | _ =>
      let c2 := flushPara c st.curContent
      { st with cur := some { c2 with content := c2.content ++ [GBlock.bullet [bulletText]] }, curContent := [] }
  else { st with curContent := st.curContent ++ [line] }

/-- One iteration of the line loop of `_convert_brd_text_to_structure`
(`lambda_brd_generator.py` lines 81-185). -/
def gStep (st : GState) (rawLine : String) : GState :=
  let line := pyStrip rawLine
  if line == "" then
    match st.cur with
    | some c =>
      if st.curContent.isEmpty then st
      else { st with cur := some (flushPara c st.curContent), curContent := [] }
    | none => st
  else
    match genHeaderMatch line with
    | some (num, titleText) =>
      if num > 16 then
        match st.cur with
        | some _ => { st with curContent := st.curContent ++ [line] }
        | none => st
      else
        let titleTxt := pyStrip titleText
        if num == 1 &&
            !(st.sections.any (fun sec => pyStartsWith "document overview" (pyLower sec.title))) &&
            (pyIn "ai-powered" (pyLower titleTxt) || pyIn "brd" (pyLower titleTxt) ||
              titleTxt.length < 30) then
          match st.cur with
          | some _ => { st with curContent := st.curContent ++ [line] }
          | none => st
        else startNewSection st titleTxt
    | none =>
      if pyStartsWith "##" line && line.length > 3 then
        startNewSection st (pyStrip ⟨removeHashHash line.data⟩)
      else
        match st.cur with
        | some c => gContentLine st c line
        | none => st

/-- `_convert_brd_text_to_structure` (`lambda_brd_generator.py` lines
69-201): fold the line loop over `brd_text.split('\n')`, close the last
section, and return the document, or `None` when no section was found. -/
def convertBrdTextToStructure (brdText : String) : Option GDoc :=
  let finalSt := (pySplitChar '\n' brdText).foldl gStep ⟨[], none, []⟩
  let sections :=
    match finalSt.cur with
    | some c => finalSt.sections ++ [flushPara c finalSt.curContent]
    | none => finalSt.sections
  if sections.isEmpty then none else some ⟨sections⟩

/-! ## Conversation-log context tracking (`lambda_handler`) -/

/-- Lines 1894-1907 (repeated at 2359-2372 and 2424-2437): normalize a
history message's `content` to text.  A list joins its parts with spaces
(dict items contribute their `"text"`, strings themselves, anything else
nothing); a dict contributes its `"text"` when that is a string; a string
is itself; anything else fails the `isinstance(content, str)` test and the
message is skipped (`none`).  (A non-string `"text"` inside a list item
would make Python's `join` raise; it contributes nothing here, and no
theorem below exercises it.) -/
def extractMsgText : Json → Option String
  | .str s => some s
  | .arr items => some (String.intercalate " " (items.map fun it =>
      match it with
      | .obj _ => jGetStrD it "text" ""
      | .str s => s
      | _ => ""))
  | .obj fields =>
    match jGetD (.obj fields) "text" (.str "") with
    | .str s => some s
    | _ => none
  | _ => none

/-- The update-confirmation filter of lines 1911, 2376 and 2440:
`"updated successfully" in content.lower() or ("✅" in content and
"Section" in content)`. -/
def isUpdateConfirmation (content : String) : Bool :=
  pyIn "updated successfully" (pyLower content) ||
  (pyIn "✅" content && pyIn "Section" content)

/-- `Section\s+['\"](\d+)\.\s*([^'\"]+)['\"]` with `re.IGNORECASE`
(lines 1872 and 1913), transcribed token by token. -/
def confirmQuoteRe : Re := Re.cat [
  Re.strci "section", Re.plus (.cls .space),
  Re.alt (.cls (.lit '\'')) (.cls (.lit '"')),
  Re.grp 1 (Re.plus (.cls .digit)),
  .cls (.lit '.'),
  Re.star (.cls .space),
  Re.grp 2 (Re.plus (.cls .notQuote)),
  Re.alt (.cls (.lit '\'')) (.cls (.lit '"'))]

/-- `Section\s+['\"](\d+)\.\s*([^'\"]+)` with `re.IGNORECASE` (line 2441;
note: no closing quote in the source pattern). -/
def confirmOpenRe : Re := Re.cat [
  Re.strci "section", Re.plus (.cls .space),
  Re.alt (.cls (.lit '\'')) (.cls (.lit '"')),
  Re.grp 1 (Re.plus (.cls .digit)),
  .cls (.lit '.'),
  Re.star (.cls .space),
  Re.grp 2 (Re.plus (.cls .notQuote))]

/-- Python truthiness of an optional section number: `None` and `0` are
falsy. -/
def truthyNum : Option Nat → Bool
  | some n => !(n == 0)
  | none => false

/-- Python truthiness of an optional string: `None` and `""` are falsy. -/
def truthyStr : Option String → Bool
  | some s => !(s == "")
  | none => false

/-- Lines 1887-1933: scan messages (already given in reverse chronological
order) for the first assistant update confirmation and return its section
number. -/
def scanLastUpdatedAux : List Json → Option Nat
  | [] => none
  | msg :: rest =>
    if !(pyLower (jGetStrD msg "role" "") == "assistant") then scanLastUpdatedAux rest
    else
      match extractMsgText (jGetD msg "content" (.str "")) with
      | none => scanLastUpdatedAux rest
      | some content =>
        if isUpdateConfirmation content then
          match reSearch confirmQuoteRe content with
          | some caps => some (digitsToNat (capStr content caps 1).data)
          | none => scanLastUpdatedAux rest
        else scanLastUpdatedAux rest

/-- The `"show [me] updated section"` branch of the handler (lines
1859-1952): prefer the section updated in the current request, then an
update confirmation quoted inside the current message, then the most
recent assistant confirmation in the history; show that section, or report
that nothing is known. -/
def showUpdatedBranch (userMessage : String) (history : List Json)
    (lastUpdatedSection : Option Nat) (brd : Json) : String :=
  if truthyNum lastUpdatedSection then handleShowSection brd (lastUpdatedSection.getD 0)
  else
    let fromMessage : Option Nat :=
      if pyIn "✅" userMessage || pyIn "updated successfully" (pyLower userMessage) then
        match reSearch confirmQuoteRe userMessage with
        | some caps => some (digitsToNat (capStr userMessage caps 1).data)
        | none => none
      else none
    let fromHistory : Option Nat :=
      if !truthyNum fromMessage && !history.isEmpty then scanLastUpdatedAux history.reverse
      else none
    let sectionNum := if truthyNum fromMessage then fromMessage else fromHistory
    if truthyNum sectionNum then handleShowSection brd (sectionNum.getD 0)
    else "I don\x27t have information about which section was last updated. Please specify a section number, e.g., \x27show section 4\x27."

/-- Lines 2419-2454: walk the history in reverse chronological order,
collecting `(number, title)` of every assistant update confirmation whose
number was not already collected. -/
def collectUpdAux : List Json → List (Nat × String) → List (Nat × String)
  | [], acc => acc
  | msg :: rest, acc =>
    if !(pyLower (jGetStrD msg "role" "") == "assistant") then collectUpdAux rest acc
    else
      match extractMsgText (jGetD msg "content" (.str "")) with
      | none => collectUpdAux rest acc
      | some content =>
        if isUpdateConfirmation content then
          match reSearch confirmOpenRe content with
          | some caps =>
            let n := digitsToNat (capStr content caps 1).data
            let t := pyStrip (capStr content caps 2)
            if acc.any (fun e => e.1 == n) then collectUpdAux rest acc
            else collectUpdAux rest (acc ++ [(n, t)])
          | none => collectUpdAux rest acc
        else collectUpdAux rest acc

/-- Stable insertion into a list sorted by section number. -/
def insertByNum (x : Nat × String) : List (Nat × String) → List (Nat × String)
  | [] => [x]
  | y :: ys => if y.1 ≤ x.1 then y :: insertByNum x ys else x :: y :: ys

/-- Stable sort by section number: models
`all_updated_sections.sort(key=lambda x: x["number"])` (line 2480). -/
def sortByNum : List (Nat × String) → List (Nat × String)
  | [] => []
  | x :: xs => insertByNum x (sortByNum xs)

/-- The full `all_updated_sections` computation for an update question
(lines 2416-2454 then 2480): collect all confirmations, then sort
ascending by section number. -/
def allUpdatedSections (history : List Json) : List (Nat × String) :=
  sortByNum (collectUpdAux history.reverse [])

/-- The update-question filter of lines 2410-2413. -/
def isUpdateQuestion (m : String) : Bool :=
  ["which sections", "what sections", "how many sections", "sections i have updated",
   "sections updated", "sections changed", "sections modified", "sections edited"].any
    (fun p => pyIn p (pyLower m))

/-! ## The direct-parse dispatch of `lambda_handler` (lines 1852-2348) -/

/-- One-pass splitter on whitespace runs; `cur` holds the token in
progress, reversed. -/
def wsSplitAux (cur : List Char) : List Char → List String
  | [] => if cur.isEmpty then [] else [⟨cur.reverse⟩]
  | c :: cs =>
    if pySpace c then
      if cur.isEmpty then wsSplitAux [] cs
      else (⟨cur.reverse⟩ : String) :: wsSplitAux [] cs
    else wsSplitAux (c :: cur) cs

/-- Python `s.split()` (split on whitespace runs, no empties). -/
def pySplitWs (s : String) : List String := wsSplitAux [] s.data

/-- The show-branch guard of line 1855. -/
def showCond (m : String) : Bool :=
  let ml := pyLower m
  pyStartsWith "show " ml ||
  (pyIn "show" ml && (pyIn "section" ml ||
    ["assumptions", "constraints", "stakeholders", "scope", "purpose", "updated"].any
      (fun w => pyIn w ml)))

/-- `^(what|which|where|when|why|how|tell|show)\s+` (line 1997; the subject
is already lowered). -/
def questionStartRe : Re := Re.cat [
  Re.alts [Re.str "what", Re.str "which", Re.str "where", Re.str "when",
           Re.str "why", Re.str "how", Re.str "tell", Re.str "show"],
  Re.plus (.cls .space)]

/-- The question heuristic of lines 1989-1998: a known question phrase, or
a leading interrogative word combined with `"updated"` or `"section"` in
the message. -/
def isQuestionMsg (m : String) : Bool :=
  let ml := pyLower m
  (["what updated", "which section", "what changes", "what did i", "what have i",
    "show me what", "tell me what", "what sections", "which sections"].any
      (fun p => pyIn p ml)) ||
  ((reMatch questionStartRe ml).isSome && (pyIn "updated" ml || pyIn "section" ml))

/-- The edit-word test of lines 2000 and 2005 (same five words). -/
def hasEditWord (m : String) : Bool :=
  ["change", "replace", "update", "modify", "edit"].any (fun w => pyIn w (pyLower m))

/-- `(?:update|modify|edit)` under `re.IGNORECASE`. -/
def updWordRe : Re := Re.alts [Re.strci "update", Re.strci "modify", Re.strci "edit"]

/-- `(?:change|replace|update|modify|edit)` under `re.IGNORECASE`. -/
def editWordRe : Re :=
  Re.alts [Re.strci "change", Re.strci "replace", Re.strci "update",
           Re.strci "modify", Re.strci "edit"]

/-- `\s+`. -/
def spPlus : Re := Re.plus (.cls .space)

/-- `(?:section\s+)?`. -/
def sectionOpt : Re := Re.opt (Re.cat [Re.strci "section", spPlus])

/-- `(?:in\s+)?`. -/
def inOpt : Re := Re.opt (Re.cat [Re.strci "in", spPlus])

/-- Pattern 1 (line 2014): `(?:update|modify|edit)\s+(?:section\s+)?(\d+)[:\s]+(.+)`
with `re.IGNORECASE | re.DOTALL`. -/
def pat1Re : Re := Re.cat [updWordRe, spPlus, sectionOpt,
  Re.grp 1 (Re.plus (.cls .digit)),
  Re.plus (Re.alt (.cls (.lit ':')) (.cls .space)),
  Re.grp 2 (Re.plus (.cls .dotAll))]

/-- Pattern 1b (line 2022): `(?:update|modify|edit)\s+section\s+([a-zA-Z\s]+?)[:\s]+(.+)`. -/
def pat1bRe : Re := Re.cat [updWordRe, spPlus, Re.strci "section", spPlus,
  Re.grp 1 (Re.plusLazy (.cls .alphaSpace)),
  Re.plus (Re.alt (.cls (.lit ':')) (.cls .space)),
  Re.grp 2 (Re.plus (.cls .dotAll))]

/-- Pattern 2 (line 2030): `(?:update|modify|edit)\s+(?:section\s+)?(\d+)\s+(.+)`. -/
def pat2Re : Re := Re.cat [updWordRe, spPlus, sectionOpt,
  Re.grp 1 (Re.plus (.cls .digit)), spPlus, Re.grp 2 (Re.plus (.cls .dotAll))]

/-- Pattern 2b (line 2038): `(?:update|modify|edit)\s+section\s+([a-zA-Z\s]+?)\s+(.+)`. -/
def pat2bRe : Re := Re.cat [updWordRe, spPlus, Re.strci "section", spPlus,
  Re.grp 1 (Re.plusLazy (.cls .alphaSpace)), spPlus, Re.grp 2 (Re.plus (.cls .dotAll))]

/-- Pattern 3 (line 2046): `(?:update|modify|edit)\s+in\s+section\s+(\d+)\s+(.+)`. -/
def pat3Re : Re := Re.cat [updWordRe, spPlus, Re.strci "in", spPlus, Re.strci "section", spPlus,
  Re.grp 1 (Re.plus (.cls .digit)), spPlus, Re.grp 2 (Re.plus (.cls .dotAll))]

/-- Pattern 3b (line 2054): `(?:update|modify|edit)\s+in\s+section\s+([a-zA-Z\s]+?)\s+(.+)`. -/
def pat3bRe : Re := Re.cat [updWordRe, spPlus, Re.strci "in", spPlus, Re.strci "section", spPlus,
  Re.grp 1 (Re.plusLazy (.cls .alphaSpace)), spPlus, Re.grp 2 (Re.plus (.cls .dotAll))]

/-- Pattern 4 (line 2062): `(?:in\s+)?section\s+(\d+).*?(?:change|replace|update|modify|edit)\s+(.+)`. -/
def pat4Re : Re := Re.cat [inOpt, Re.strci "section", spPlus,
  Re.grp 1 (Re.plus (.cls .digit)), Re.starLazy (.cls .dotAll),
  editWordRe, spPlus, Re.grp 2 (Re.plus (.cls .dotAll))]

/-- Pattern 4b (line 2070): `(?:in\s+)?section\s+([a-zA-Z\s]+?).*?(?:change|replace|update|modify|edit)\s+(.+)`. -/
def pat4bRe : Re := Re.cat [inOpt, Re.strci "section", spPlus,
  Re.grp 1 (Re.plusLazy (.cls .alphaSpace)), Re.starLazy (.cls .dotAll),
  editWordRe, spPlus, Re.grp 2 (Re.plus (.cls .dotAll))]

/-- Pattern 5 (lines 2078 and, with `re.IGNORECASE` only, 2296):
`(?:change|replace|update|modify|edit)\s+(.+?)\s+(?:to|with)\s+(.+?)\s+in\s+(?:section\s+)?(\d+)`;
`dot` is the dot class under the flags in force. -/
def pat5ReWith (dot : RCls) : Re := Re.cat [editWordRe, spPlus,
  Re.grp 1 (Re.plusLazy (.cls dot)), spPlus,
  Re.alt (Re.strci "to") (Re.strci "with"), spPlus,
  Re.grp 2 (Re.plusLazy (.cls dot)), spPlus,
  Re.strci "in", spPlus, sectionOpt, Re.grp 3 (Re.plus (.cls .digit))]

/-- Pattern 5b (line 2088):
`(?:change|replace|update|modify|edit)\s+(.+?)\s+(?:to|with)\s+(.+?)\s+in\s+section\s+([a-zA-Z\s]+)`. -/
def pat5bRe : Re := Re.cat [editWordRe, spPlus,
  Re.grp 1 (Re.plusLazy (.cls .dotAll)), spPlus,
  Re.alt (Re.strci "to") (Re.strci "with"), spPlus,
  Re.grp 2 (Re.plusLazy (.cls .dotAll)), spPlus,
  Re.strci "in", spPlus, Re.strci "section", spPlus,
  Re.grp 3 (Re.plus (.cls .alphaSpace))]

/-- `change\s+(.+?)\s+to\s+(.+)` with `re.IGNORECASE | re.DOTALL`
(lines 2099 and 2110). -/
def changeToRe : Re := Re.cat [Re.strci "change", spPlus,
  Re.grp 1 (Re.plusLazy (.cls .dotAll)), spPlus, Re.strci "to", spPlus,
  Re.grp 2 (Re.plus (.cls .dotAll))]

/-- `section\s+(\d+)` with `re.IGNORECASE` (lines 2100 and 1957). -/
def sectionNumRe : Re := Re.cat [Re.strci "section", spPlus, Re.grp 1 (Re.plus (.cls .digit))]

/-- `section\s+([a-zA-Z\s]+)` with `re.IGNORECASE` (line 2111). -/
def sectionTitleRe : Re := Re.cat [Re.strci "section", spPlus, Re.grp 1 (Re.plus (.cls .alphaSpace))]

/-- Pattern 7 (line 2121): `(?:in\s+)?section\s+(\d+)\s+(.+)`. -/
def pat7Re : Re := Re.cat [inOpt, Re.strci "section", spPlus,
  Re.grp 1 (Re.plus (.cls .digit)), spPlus, Re.grp 2 (Re.plus (.cls .dotAll))]

/-- Pattern 7b (line 2132):
`(?:update|modify|edit|change|replace)\s+(?:in\s+)?section\s+([a-zA-Z\s]{3,}?)\s+(.+)`. -/
def pat7bRe : Re := Re.cat [
  Re.alts [Re.strci "update", Re.strci "modify", Re.strci "edit",
           Re.strci "change", Re.strci "replace"],
  spPlus, inOpt, Re.strci "section", spPlus,
  Re.grp 1 (Re.rep (.cls .alphaSpace) 3 none true), spPlus,
  Re.grp 2 (Re.plus (.cls .dotAll))]

/-- `(?:change|replace|update|modify|edit)\s+(.+?)\s+(?:to|with)\s+(.+)` with
`re.IGNORECASE` (lines 2218 and 2234; no DOTALL). -/
def changeToWithRe : Re := Re.cat [editWordRe, spPlus,
  Re.grp 1 (Re.plusLazy (.cls .dotNoNl)), spPlus,
  Re.alt (Re.strci "to") (Re.strci "with"), spPlus,
  Re.grp 2 (Re.plus (.cls .dotNoNl))]

/-- `(?:change|replace|update|modify|edit)\s+(.+)` with `re.IGNORECASE`
(lines 2226 and 2236). -/
def changeRestRe : Re := Re.cat [editWordRe, spPlus, Re.grp 1 (Re.plus (.cls .dotNoNl))]

/-- `show\s+(?:me\s+)?(?:section\s+)?(\d+)` (line 1955; subject lowered). -/
def showNumRe : Re := Re.cat [Re.str "show", spPlus,
  Re.opt (Re.cat [Re.str "me", spPlus]), Re.opt (Re.cat [Re.str "section", spPlus]),
  Re.grp 1 (Re.plus (.cls .digit))]

/-- `show\s+(?:me\s+)?(?:section\s+)?(.+)` (line 1964; subject lowered, no
DOTALL). -/
def showIdentRe : Re := Re.cat [Re.str "show", spPlus,
  Re.opt (Re.cat [Re.str "me", spPlus]), Re.opt (Re.cat [Re.str "section", spPlus]),
  Re.grp 1 (Re.plus (.cls .dotNoNl))]

/-! ## `create_minimal_structure_from_text`
(`lambda_brd_chat.py` lines 391-448) -/

/-- `^(\d+)\.\s*(.+)$` (line 408), transcribed token by token. -/
def minHeaderRe : Re := Re.cat [
  Re.grp 1 (Re.plus (.cls .digit)),
  .cls (.lit '.'),
  Re.star (.cls .space),
  Re.grp 2 (Re.plus (.cls .dotNoNl)),
  Re.eos]

/-- One iteration of the line loop of `create_minimal_structure_from_text`
(lines 402-432): blank lines are skipped, numbered or `##` headers open a
new section, every other line inside a section accumulates as pending
paragraph text. -/
def minStep (st : GState) (rawLine : String) : GState :=
  let line := pyStrip rawLine
  if line == "" then st
  else
    match reMatch minHeaderRe line with
    | some caps => startNewSection st (pyStrip (capStr line caps 2))
    | none =>
      if pyStartsWith "##" line && line.length > 3 then
        startNewSection st (pyStrip ⟨removeHashHash line.data⟩)
      else
        match st.cur with
        | some _ => { st with curContent := st.curContent ++ [line] }
        | none => st

/-- `create_minimal_structure_from_text` (lines 391-448): fold the line
loop over `brd_text.split('\n')`, close the last section, return `None`
when no section was found. -/
def createMinimalStructureFromText (brdText : String) : Option GDoc :=
  let finalSt := (pySplitChar '\n' brdText).foldl minStep ⟨[], none, []⟩
  let sections :=
    match finalSt.cur with
    | some c => finalSt.sections ++ [flushPara c finalSt.curContent]
    | none => finalSt.sections
  if sections.isEmpty then none else some ⟨sections⟩

/-- The mutable parse state of the update-pattern cascade (lines
2007-2140): the `match` flag and the `section_num` / `section_title` /
`instruction` variables. -/
structure ParseSt where
  mtch : Bool
  secNum : Option Nat
  secTitle : Option String
  instr : Option String
deriving DecidableEq

/-- Run one numeric pattern: on a hit set `match`, `section_num` (group 1)
and `instruction` (group 2, stripped). -/
def tryNumPat (r : Re) (m : String) (st : ParseSt) : ParseSt :=
  if st.mtch then st
  else
    match reSearch r m with
    | some caps =>
      { st with mtch := true, secNum := some (digitsToNat (capStr m caps 1).data),
                instr := some (pyStrip (capStr m caps 2)) }
    | none => st

/-- Run one title pattern: on a hit set `match`, `section_title` (group 1,
stripped) and `instruction` (group 2, stripped). -/
def tryTitlePat (r : Re) (m : String) (st : ParseSt) : ParseSt :=
  if st.mtch then st
  else
    match reSearch r m with
    | some caps =>
      { st with mtch := true, secTitle := some (pyStrip (capStr m caps 1)),
                instr := some (pyStrip (capStr m caps 2)) }
    | none => st

/-- Patterns 5 / 5b (change A to B in section N / TITLE): the instruction
is synthesized as `"change A to B"`. -/
def changeInstr (m : String) (caps : Caps) : String :=
  "change " ++ pyStrip (capStr m caps 1) ++ " to " ++ pyStrip (capStr m caps 2)

/-- Pattern 8 (lines 2143-2239), reached only when nothing matched and no
section was found: on `"here"`, resolve the last shown section (preferring
a title search through `_find_section_by_title_or_number`, with the title
verification of lines 2189-2203 only logging) and synthesize the
instruction from the change phrase.  When no section was ever shown the
change phrases are probed but nothing is assigned (lines 2230-2239). -/
def tryPattern8 (m : String) (brd : Json) (lastShown : Option Nat)
    (lastShownTitle : Option String) (st : ParseSt) : ParseSt :=
  if st.mtch || truthyNum st.secNum || truthyStr st.secTitle then st
  else if !(pyIn "here" (pyLower m)) then st
  else if truthyNum lastShown then
    let secNum : Option Nat :=
      if truthyStr lastShownTitle && jTruthy brd then
        let found := findSectionByTitleOrNumber brd (lastShownTitle.getD "")
        if truthyNum found then
          let sections := jGetArrD brd "sections"
          let hdt := hasDocTitle sections
          let arrayIndex := if hdt then found.getD 0 else found.getD 0 - 1
          if arrayIndex < sections.length then
            if jTruthy (sections.getD arrayIndex Json.null) then found else lastShown
          else lastShown
        else lastShown
      else lastShown
    let instr : Option String :=
      match reSearch changeToWithRe m with
      | some caps => some (changeInstr m caps)
      | none =>
        match reSearch changeRestRe m with
        | some caps => some (pyStrip (capStr m caps 1))
        | none => st.instr
    { st with secNum := secNum, instr := instr }
  else st

/-- The full pattern cascade of lines 2007-2239, in source order. -/
def runCascade (m : String) (brd : Json) (lastShown : Option Nat)
    (lastShownTitle : Option String) : ParseSt :=
  let st0 : ParseSt := ⟨false, none, none, none⟩
  let st1 := tryNumPat pat1Re m st0
  let st2 := tryTitlePat pat1bRe m st1
  let st3 := tryNumPat pat2Re m st2
  let st4 := tryTitlePat pat2bRe m st3
  let st5 := tryNumPat pat3Re m st4
  let st6 := tryTitlePat pat3bRe m st5
  let st7 := tryNumPat pat4Re m st6
  let st8 := tryTitlePat pat4bRe m st7
  -- pattern 5 (line 2078)
  let st9 :=
    if st8.mtch then st8
    else
      match reSearch (pat5ReWith .dotAll) m with
      | some caps =>
        { st8 with mtch := true, secNum := some (digitsToNat (capStr m caps 3).data),
                   instr := some (changeInstr m caps) }
      | none => st8
  -- pattern 5b (line 2088)
  let st10 :=
    if st9.mtch then st9
    else
      match reSearch pat5bRe m with
      | some caps =>
        { st9 with mtch := true, secTitle := some (pyStrip (capStr m caps 3)),
                   instr := some (changeInstr m caps) }
      | none => st9
  -- pattern 6 (lines 2097-2106): sets the variables without setting `match`
  let st11 :=
    if st10.mtch then st10
    else
      match reSearch changeToRe m, reSearch sectionNumRe m with
      | some ccaps, some scaps =>
        { st10 with secNum := some (digitsToNat (capStr m scaps 1).data),
                    instr := some (changeInstr m ccaps) }
      | _, _ => st10
  -- pattern 6b (lines 2109-2117): likewise without setting `match`
  let st12 :=
    if st11.mtch then st11
    else
      match reSearch changeToRe m, reSearch sectionTitleRe m with
      | some ccaps, some scaps =>
        { st11 with secTitle := some (pyStrip (capStr m scaps 1)),
                    instr := some (changeInstr m ccaps) }
      | _, _ => st11
  let st13 := tryNumPat pat7Re m st12
  -- pattern 7b (lines 2130-2140): assigns title and instruction, then
  -- resets `match` (but not the assignments) when the validation fails
  let st14 :=
    if st13.mtch then st13
    else
      match reSearch pat7bRe m with
      | some caps =>
        let title := pyStrip (capStr m caps 1)
        let ok := title.length ≥ 3 &&
          !(["i", "have", "what", "which", "where", "when", "why", "how"].any
              (fun w => pyLower title == w))
        { st13 with mtch := ok, secTitle := some title,
                    instr := some (pyStrip (capStr m caps 2)) }
      | none => st13
  tryPattern8 m brd lastShown lastShownTitle st14

/-- Outcome of the update execution (lines 2241-2334): a committed update
(the saves are modelled as succeeding) or a failure message. -/
inductive UpdFlow where
  | committed (message : String) (newBrd : Json)
  | failedMsg (message : String)

/-- The cascade followed by the title-to-number resolution of lines
2242-2247 (`if section_title and not section_num: section_num =
_find_section_by_title_or_number(...)`). -/
def resolvedParse (m : String) (brd : Json) (lastShown : Option Nat)
    (lastShownTitle : Option String) : ParseSt :=
  let st := runCascade m brd lastShown lastShownTitle
  if truthyStr st.secTitle && !truthyNum st.secNum then
    { st with secNum := findSectionByTitleOrNumber brd (st.secTitle.getD "") }
  else st

/-- Lines 2249-2334: execute the update when both a truthy section number
and a truthy instruction are in hand, otherwise probe pattern 5 once more
(this time without DOTALL) and finally report a parse failure. -/
def executeUpdateFlow (m : String) (brd : Json) (lastShown : Option Nat)
    (lastShownTitle : Option String) (rawResp : String) : UpdFlow :=
  let st2 := resolvedParse m brd lastShown lastShownTitle
  if truthyNum st2.secNum && truthyStr st2.instr then
    let result := handleUpdateSection brd (st2.secNum.getD 0) (st2.instr.getD "") rawResp
    if result.success then .committed result.message (result.updatedBrd.getD brd)
    else .failedMsg result.message
  else
    match reSearch (pat5ReWith .dotNoNl) m with
    | some caps =>
      let result := handleUpdateSection brd (digitsToNat (capStr m caps 3).data)
        (changeInstr m caps) rawResp
      if result.success then .committed result.message (result.updatedBrd.getD brd)
      else .failedMsg result.message
    | none =>
      .failedMsg (if truthyStr st2.secTitle then
        "Section \x27" ++ st2.secTitle.getD "" ++
          "\x27 not found. Use \x27list\x27 to see all sections."
      else
        "Could not parse update command. Please specify the section number or name and what to change. Examples:\n- update section 4: change sarah to aman\n- update section stakeholders: change sarah to aman\n- in section 4 change sarah to aman\n- change sarah to aman in section 4\n- update sarah to aman in section stakeholders")

/-- `handle_list_sections` (lines 911-922). -/
def listTitles : List Json → Nat → String
  | [], _ => ""
  | sec :: rest, i => toString i ++ ". " ++ jGetStrD sec "title" "Untitled" ++ "\n" ++
      listTitles rest (i + 1)

/-- `handle_list_sections` (lines 911-922). -/
def handleListSections (brd : Json) : String :=
  let sections := jGetArrD brd "sections"
  if sections.isEmpty then "No sections found in BRD."
  else "**BRD Sections:**\n\n" ++ listTitles sections 1

/-- The numeric / title show path (lines 1954-1983): a number after
`show`, or a bare `section N`, or a title resolved through
`_find_section_by_title_or_number`, with `int(split()[1])` fallbacks.  A
negative fallback integer behaves exactly like section number 0 (both are
below 1), which is how it is modelled here. -/
def showNumberOrTitle (m : String) (brd : Json) : String :=
  let ml := pyLower m
  let numCaps :=
    match reSearch showNumRe ml with
    | some caps => some caps
    | none => reSearch sectionNumRe ml
  match numCaps with
  | some caps => handleShowSection brd (digitsToNat (capStr ml caps 1).data)
  | none =>
    let splitFallback (failMsg : String) : String :=
      match (pySplitWs m).drop 1 with
      | w :: _ =>
        match pyIntParse w with
        | some i => handleShowSection brd i.toNat
        | none => failMsg
      | [] => failMsg
    match reSearch showIdentRe ml with
    | some caps =>
      let ident := pyStrip (capStr ml caps 1)
      let found := findSectionByTitleOrNumber brd ident
      if truthyNum found then handleShowSection brd (found.getD 0)
      else splitFallback ("Could not find section \x27" ++ ident ++
        "\x27. Please use \x27list\x27 to see all sections or specify a section number.")
    | none =>
      splitFallback "Usage: show <section number> or show section <number> or show <section name>"

/-- The whole show branch (lines 1855-1985): `"updated"` in the message
selects the last-updated path, anything else the numeric / title path. -/
def showBranch (m : String) (history : List Json) (lastUpdated : Option Nat)
    (brd : Json) : String :=
  if pyIn "updated" (pyLower m) then showUpdatedBranch m history lastUpdated brd
  else showNumberOrTitle m brd

/-- What the direct-parse dispatch did with a message: whether control
reached the general-question path of line 2348 (`routedToQuery`), the
document committed back to the store if an update succeeded
(`updatedBrd`), and the assistant response assembled so far. -/
structure Dispatched where
  routedToQuery : Bool
  updatedBrd : Option Json
  response : String

/-- The direct-parse dispatch of `lambda_handler` (lines 1852-2348):
`"list"`, the show branch, the question check of lines 1989-2004, the
edit-word gate, the update cascade, and the reach-general-question
condition `not assistant_response or (is_question and not brd_updated)` of
line 2348.  `rawResp` stands for the generation model's reply wherever an
update is actually executed. -/
def dispatchParsed (m : String) (brd : Json) (history : List Json)
    (lastShown : Option Nat) (lastShownTitle : Option String)
    (lastUpdated : Option Nat) (rawResp : String) : Dispatched :=
  if pyLower m == "list" then ⟨false, none, handleListSections brd⟩
  else if showCond m then ⟨false, none, showBranch m history lastUpdated brd⟩
  else
    let isq := isQuestionMsg m
    if isq && !hasEditWord m then ⟨true, none, ""⟩
    else if hasEditWord m then
      match executeUpdateFlow m brd lastShown lastShownTitle rawResp with
      | .committed msg newBrd => ⟨false, some newBrd, msg⟩
      | .failedMsg msg => ⟨isq, none, msg⟩
    else ⟨true, none, ""⟩

/-! ## Specification-side predicates and concrete fixtures -/

/-- The document-title detection rule as the specification words it: the
title is (short, or carries product-name tokens) AND does not itself look
like a numbered section header.  Written from the spec sentence, for
comparison with `hasDocTitle`, the code's rule. -/
def specClaimTitleDetect (sections : List Json) : Bool :=
  match sections with
  | [] => false
  | s0 :: _ =>
    let t := pyLower (jGetStrD s0 "title" "")
    (decide (t.length < 30) || pyIn "ai-powered" t || pyIn "brd" t) && !startsNumDot t

/-- A message parses to no executable edit command: the cascade (with the
post-cascade title resolution of lines 2242-2247) leaves no truthy
(section number, instruction) pair, and the pattern-5 fallback of line
2296 finds nothing either. -/
def parsesToNoEdit (m : String) (brd : Json) (lastShown : Option Nat)
    (lastShownTitle : Option String) : Bool :=
  !(truthyNum (resolvedParse m brd lastShown lastShownTitle).secNum &&
      truthyStr (resolvedParse m brd lastShown lastShownTitle).instr) &&
    (reSearch (pat5ReWith .dotNoNl) m).isNone

/-- Is a reconstructed block a paragraph? -/
def blockIsPara : GBlock → Bool
  | .para _ => true
  | .bullet _ => false
  | .table _ => false

/-- Every block of every section of the document is a paragraph. -/
def docParaOnly (d : GDoc) : Bool :=
  d.sections.all (fun sec => sec.content.all blockIsPara)

/-- Every block of every section held by a reconstruction state is a
paragraph (the invariant `minStep` preserves). -/
def stParaOnly (st : GState) : Bool :=
  st.sections.all (fun sec => sec.content.all blockIsPara) &&
  st.cur.all (fun c => c.content.all blockIsPara)

/-- A two-section document without a document-title pseudo-section (the
first title starts with `1.`). -/
def c1Brd : Json := .obj [("sections", .arr [
  .obj [("title", .str "1. Purpose"),
        ("content", .arr [.obj [("type", .str "paragraph"), ("text", .str "Contact: Sarah")]])],
  .obj [("title", .str "2. Scope"), ("content", .arr [])]])]

/-- A model reply whose returned title `Overview` fuzzy-matches no section
of `c1Brd`. -/
def c1Resp : String := "\x7b\"title\": \"Overview\", \"content\": []\x7d"

/-- The truncated candidate of the spec's JSON-repair property: two
unmatched opening braces and two unmatched opening brackets. -/
def c2Trunc : String := "\x7b\"sections\":[\x7b\"title\":\"A\",\"content\":["

/-- A document whose index 0 is a document-title pseudo-section. -/
def c3Brd : Json := .obj [("sections", .arr [
  .obj [("title", .str "Document Overview"), ("content", .arr [])],
  .obj [("title", .str "Purpose"),
        ("content", .arr [.obj [("type", .str "paragraph"), ("text", .str "Why we build it")]])],
  .obj [("title", .str "Stakeholders"), ("content", .arr [])]])]

/-- A first section that carries the token `brd` AND looks like a numbered
section header. -/
def c4Secs : List Json := [.obj [("title", .str "1. BRD scope"), ("content", .arr [])]]

/-- An assistant update confirmation for section 3 (`Scope`). -/
def c7Confirm : Json := .obj [("role", .str "assistant"),
  ("content", .str "✅ Section \x273. Scope\x27 updated successfully")]

/-- An assistant update confirmation for section 7 (`Risks`). -/
def c8Confirm7 : Json := .obj [("role", .str "assistant"),
  ("content", .str "✅ Section \x277. Risks\x27 updated successfully")]

/-- A user event (skipped by the assistant scans). -/
def c7UserMsg : Json := .obj [("role", .str "user"), ("content", .str "update 3: rewrite it")]

/-! ## Theorems -/

/-- C1: at a document and model reply whose returned title (`Overview`)
fuzzy-matches no section title, `handle_update_section` does **not**
reject the commit: it reports success and returns a document whose
serialized form differs from the stored one (the first section's content
is replaced by the model's content under the expected title). -/
theorem handleUpdateSection_commits_on_unmatched_title :
    (handleUpdateSection c1Brd 1 "change Sarah to Aman" c1Resp).success = true ∧
    ((handleUpdateSection c1Brd 1 "change Sarah to Aman" c1Resp).updatedBrd.map jser).isSome
      = true ∧
    (handleUpdateSection c1Brd 1 "change Sarah to Aman" c1Resp).updatedBrd.map jser ≠
      some (jser c1Brd) :=
  ⟨by decide, by decide, by decide⟩

/-- C2: on the truncated candidate
`\x7b"sections":[\x7b"title":"A","content":[`, every stage of the JSON-repair
pipeline fails (the balance repair appends `\x7d\x7d]]`, which still does not
parse, and the parse error's offset 37 is not less than the candidate's
length 37, so the truncation-safe cut is never tried): the pipeline
surfaces an error instead of producing an object with key `"sections"`. -/
theorem repairPipeline_fails_on_truncated_sections :
    (parseWithRepairPipeline c2Trunc).isNone = true ∧
    (convertedStructure c2Trunc).isNone = true := by
  constructor <;> decide

theorem sectionNumber_mapping (brd : Json) (n : Nat) (instr resp : String) :
    (hasDocTitle (jGetArrD brd "sections") = true →
      ((1 ≤ n ∧ n ≤ (jGetArrD brd "sections").length - 1) →
        handleShowSection brd n =
          renderShownSection n ((jGetArrD brd "sections").getD n Json.null) ∧
        handleUpdateSection brd n instr resp =
          applyModelPatch brd (jGetArrD brd "sections") n n resp) ∧
      (¬(1 ≤ n ∧ n ≤ (jGetArrD brd "sections").length - 1) →
        handleShowSection brd n = invalidSectionMsg ((jGetArrD brd "sections").length - 1) ∧
        (handleUpdateSection brd n instr resp).success = false ∧
        (handleUpdateSection brd n instr resp).updatedBrd = none)) ∧
    (hasDocTitle (jGetArrD brd "sections") = false →
      ((1 ≤ n ∧ n ≤ (jGetArrD brd "sections").length) →
        handleShowSection brd n =
          renderShownSection n ((jGetArrD brd "sections").getD (n - 1) Json.null) ∧
        handleUpdateSection brd n instr resp =
          applyModelPatch brd (jGetArrD brd "sections") (n - 1) n resp) ∧
      (¬(1 ≤ n ∧ n ≤ (jGetArrD brd "sections").length) →
        handleShowSection brd n = invalidSectionMsg ((jGetArrD brd "sections").length) ∧
        (handleUpdateSection brd n instr resp).success = false ∧
        (handleUpdateSection brd n instr resp).updatedBrd = none)) := by
  constructor
  · intro hdt
    constructor
    · rintro ⟨h1, h2⟩
      have hlen : 1 ≤ (jGetArrD brd "sections").length := by omega
      constructor
      · unfold handleShowSection
        simp only [hdt, if_true]
        rw [if_neg]
        simp only [Bool.or_eq_true, decide_eq_true_eq, not_or]
        omega
      · unfold handleUpdateSection
        simp only [hdt, if_true]
        rw [if_neg]
        simp only [Bool.or_eq_true, decide_eq_true_eq, not_or]
        omega
    · intro hno
      refine ⟨?_, ?_, ?_⟩
      · unfold handleShowSection
        simp only [hdt, if_true]
        rw [if_pos]
        simp only [Bool.or_eq_true, decide_eq_true_eq]
        omega
      · unfold handleUpdateSection
        simp only [hdt, if_true]
        rw [if_pos]
        simp only [Bool.or_eq_true, decide_eq_true_eq]
        omega
      · unfold handleUpdateSection
        simp only [hdt, if_true]
        rw [if_pos]
        simp only [Bool.or_eq_true, decide_eq_true_eq]
        omega
  · intro hdt
    constructor
    · rintro ⟨h1, h2⟩
      constructor
      · unfold handleShowSection
        simp only [hdt, Bool.false_eq_true, if_false]
        rw [if_neg]
        simp only [Bool.or_eq_true, decide_eq_true_eq, not_or]
        omega
      · unfold handleUpdateSection
        simp only [hdt, Bool.false_eq_true, if_false]
        rw [if_neg]
        simp only [Bool.or_eq_true, decide_eq_true_eq, not_or]
        omega
    · intro hno
      refine ⟨?_, ?_, ?_⟩
      · unfold handleShowSection
        simp only [hdt, Bool.false_eq_true, if_false]
        rw [if_pos]
        simp only [Bool.or_eq_true, decide_eq_true_eq]
        omega
      · unfold handleUpdateSection
        simp only [hdt, Bool.false_eq_true, if_false]
        rw [if_pos]
        simp only [Bool.or_eq_true, decide_eq_true_eq]
        omega
      · unfold handleUpdateSection
        simp only [hdt, Bool.false_eq_true, if_false]
        rw [if_pos]
        simp only [Bool.or_eq_true, decide_eq_true_eq]
        omega

/-- Witness for `sectionNumber_mapping`: a valid show on a document with a
pseudo-title (section 2 renders array index 2), and an out-of-range show
on a document without one. -/
theorem sectionNumber_mapping_witness :
    handleShowSection c3Brd 2 =
      renderShownSection 2 ((jGetArrD c3Brd "sections").getD 2 Json.null) ∧
    handleShowSection c1Brd 5 = invalidSectionMsg 2 := by
  constructor
  · exact (((sectionNumber_mapping c3Brd 2 "" "").1 (by decide)).1 (by decide)).1
  · exact (((sectionNumber_mapping c1Brd 5 "" "").2 (by decide)).2 (by decide)).1

/-- `dotAfterRun l` holds exactly when `l` is a (possibly empty) digit run
followed by a dot. -/
theorem dotAfterRun_iff (l : List Char) :
    dotAfterRun l = true ↔ ∃ ds rs, l = ds ++ '.' :: rs ∧ ∀ c ∈ ds, c.isDigit = true := by
  induction l with
  | nil =>
    simp only [dotAfterRun, Bool.false_eq_true, false_iff]
    rintro ⟨ds, rs, h, -⟩
    exact (List.append_ne_nil_of_right_ne_nil ds (by simp) h.symm).elim
  | cons c cs ih =>
    by_cases hc : c.isDigit = true
    · simp only [dotAfterRun, hc, if_true, ih]
      constructor
      · rintro ⟨ds, rs, rfl, hds⟩
        exact ⟨c :: ds, rs, rfl, by simpa [hc] using hds⟩
      · rintro ⟨ds, rs, h, hds⟩
        match ds, h with
        | [], h =>
          have hcd : c = '.' := by simpa using congrArg (·.head?) h
          rw [hcd] at hc
          simp at hc
        | d :: ds', h =>
          have hd1 : d = c := by simpa using (congrArg (·.head?) h).symm
          have hd2 : cs = ds' ++ '.' :: rs := by simpa using congrArg (·.tail) h
          exact ⟨ds', rs, hd2, fun x hx => hds x (by simp [hx])⟩
    · simp only [dotAfterRun, hc, Bool.false_eq_true, if_false, beq_iff_eq]
      constructor
      · rintro rfl
        exact ⟨[], cs, rfl, by simp⟩
      · rintro ⟨ds, rs, h, hds⟩
        match ds, h with
        | [], h => simpa using congrArg (·.head?) h
        | d :: ds', h =>
          have hd1 : d = c := by simpa using (congrArg (·.head?) h).symm
          have hdig := hds d (by simp)
          rw [hd1] at hdig
          exact absurd hdig hc

/-- `startsNumDot` (the embedding of `re.match(r'^\d+\.', s)`) holds
exactly when the string starts with a nonempty digit run followed by a
dot. -/
theorem startsNumDot_iff (s : String) :
    startsNumDot s = true ↔
      ∃ ds rs, s.data = ds ++ '.' :: rs ∧ ds ≠ [] ∧ ∀ c ∈ ds, c.isDigit = true := by
  unfold startsNumDot
  match hs : s.data with
  | [] =>
    simp only [Bool.false_eq_true, false_iff]
    rintro ⟨ds, rs, h, -, -⟩
    exact (List.append_ne_nil_of_right_ne_nil ds (by simp) h.symm).elim
  | c :: cs =>
    simp only [Bool.and_eq_true, dotAfterRun_iff]
    constructor
    · rintro ⟨hc, ds, rs, h, hds⟩
      match ds, h with
      | [], h =>
        have hcd : c = '.' := by simpa using congrArg (·.head?) h
        rw [hcd] at hc; simp at hc
      | d :: ds', h =>
        exact ⟨d :: ds', rs, h, by simp, hds⟩
    · rintro ⟨ds, rs, h, hne, hds⟩
      match ds, hne, h with
      | d :: ds', _, h =>
        have hd1 : d = c := by simpa using (congrArg (·.head?) h).symm
        refine ⟨by rw [← hd1]; exact hds d (by simp), d :: ds', rs, h, hds⟩

/-- C4 counterexample: for a first section titled `1. BRD scope` the code
detects a document title (`hasDocTitle` puts the numeral-prefix test only
on the short-title branch, so the `brd` token wins), while the claim's
rule — (short or product tokens) AND not a numbered header — rejects it. -/
theorem hasDocTitle_differs_from_claim_rule :
    hasDocTitle c4Secs = true ∧ specClaimTitleDetect c4Secs = false :=
  ⟨by decide, by decide⟩

/-- C4 (amended): the code detects a document-title pseudo-section at
index 0 iff the lowered first title contains `ai-powered` or `brd`, or is
shorter than 30 characters and does not start with a nonempty digit run
followed by a dot — the numbered-header exception applies only to the
short-title branch. -/
theorem hasDocTitle_characterization (sections : List Json) (s0 : Json) (rest : List Json)
    (h : sections = s0 :: rest) :
    hasDocTitle sections = true ↔
      (pyIn "ai-powered" (pyLower (jGetStrD s0 "title" "")) = true ∨
       pyIn "brd" (pyLower (jGetStrD s0 "title" "")) = true ∨
       ((pyLower (jGetStrD s0 "title" "")).length < 30 ∧
        ¬∃ ds rs, (pyLower (jGetStrD s0 "title" "")).data = ds ++ '.' :: rs ∧
          ds ≠ [] ∧ ∀ c ∈ ds, c.isDigit = true)) := by
  subst h
  rw [← startsNumDot_iff]
  simp only [hasDocTitle, Bool.or_eq_true, Bool.and_eq_true, decide_eq_true_eq,
    Bool.not_eq_true']
  constructor
  · rintro ((h1 | h2) | ⟨h3, h4⟩)
    · exact Or.inl h1
    · exact Or.inr (Or.inl h2)
    · exact Or.inr (Or.inr ⟨h3, by simp [h4]⟩)
  · rintro (h1 | h2 | ⟨h3, h4⟩)
    · exact Or.inl (Or.inl h1)
    · exact Or.inl (Or.inr h2)
    · exact Or.inr ⟨h3, by simpa using h4⟩

/-- Witness for `hasDocTitle_characterization`: `Document Overview` (17
characters, no numeral prefix) is detected. -/
theorem hasDocTitle_characterization_witness :
    hasDocTitle (jGetArrD c3Brd "sections") = true := by
  refine (hasDocTitle_characterization (jGetArrD c3Brd "sections")
    (.obj [("title", .str "Document Overview"), ("content", .arr [])])
    ((jGetArrD c3Brd "sections").drop 1) (by rfl)).mpr ?_
  refine Or.inr (Or.inr ⟨by decide, ?_⟩)
  rintro ⟨ds, rs, hsplit, hne, hds⟩
  have : startsNumDot (pyLower (jGetStrD (.obj [("title", .str "Document Overview"),
    ("content", .arr [])]) "title" "")) = true :=
    (startsNumDot_iff _).mpr ⟨ds, rs, hsplit, hne, hds⟩
  rw [show startsNumDot (pyLower (jGetStrD (.obj [("title", .str "Document Overview"),
    ("content", .arr [])]) "title" "")) = false by decide] at this
  exact Bool.false_ne_true this

/-- The title-search loop returns the user-visible number of the first
section (scanning from `idx`) satisfying any match rule: it equals
`findIdx?` of the rule disjunction, renumbered by the pseudo-title
offset. -/
theorem findTitleAux_eq_findIdx (ident : String) (hdt : Bool) :
    ∀ (l : List Json) (idx : Nat), (hdt = true → 1 ≤ idx) →
      findTitleAux ident hdt l idx =
        (l.findIdx? (fun sec => matchRulesTitle ident (jGetStrD sec "title" ""))).map
          (fun i => if hdt then idx + i else idx + i + 1) := by
  intro l
  induction l with
  | nil => intro idx _; simp [findTitleAux]
  | cons sec rest ih =>
    intro idx hidx
    rw [findTitleAux]
    have hguard : (idx == 0 && hdt) = false := by
      cases hdt with
      | false => simp
      | true => have := hidx rfl; simp; omega
    rw [hguard]
    simp only [Bool.false_eq_true, if_false]
    by_cases hm : matchRulesTitle ident (jGetStrD sec "title" "") = true
    · simp [List.findIdx?_cons, hm]
    · have hm' : matchRulesTitle ident (jGetStrD sec "title" "") = false := by
        simpa using hm
      rw [if_neg (by simp [hm'])]
      rw [ih (idx + 1) (fun _ => by omega)]
      simp only [List.findIdx?_cons, hm', Bool.false_eq_true, if_false]
      rw [List.findIdx?_succ]
      cases rest.findIdx? (fun sec => matchRulesTitle ident (jGetStrD sec "title" "")) with
      | none => simp
      | some i =>
        simp only [Option.map_some, Option.map_map]
        congr 1
        funext j
        cases hdt <;> simp <;> omega

/-- C5: for every document and non-numeric identifier,
`_find_section_by_title_or_number` lower-cases and strips the identifier
and returns the user-visible number (array index under a pseudo-title,
index plus one otherwise) of the first non-title section satisfying the
prioritized match rules (`matchRulesTitle`); concretely, on sections
`[Document Overview, Purpose, Stakeholders]` with the pseudo-title at
index 0, resolving `purpose` returns user section 1. -/
theorem findSection_title_resolution :
    (∀ (brd : Json) (s : String), pyIntParse s = none →
      findSectionByTitleOrNumber brd s =
        (((jGetArrD brd "sections").drop
            (if hasDocTitle (jGetArrD brd "sections") then 1 else 0)).findIdx?
            (fun sec => matchRulesTitle (pyStrip (pyLower s)) (jGetStrD sec "title" ""))).map
          (fun i => if hasDocTitle (jGetArrD brd "sections") then 1 + i else i + 1)) ∧
    findSectionByTitleOrNumber c3Brd "purpose" = some 1 := by
  constructor
  · intro brd s hs
    unfold findSectionByTitleOrNumber
    rw [hs]
    cases hdt : hasDocTitle (jGetArrD brd "sections") with
    | true =>
      simp only [hdt, if_true]
      rw [findTitleAux_eq_findIdx (pyStrip (pyLower s)) true _ 1 (fun _ => le_refl 1)]
      simp
    | false =>
      simp only [hdt, Bool.false_eq_true, if_false]
      rw [findTitleAux_eq_findIdx (pyStrip (pyLower s)) false _ 0 (fun h => by simp at h)]
      simp
  · decide

/-- Witness for `findSection_title_resolution`: the characterization
applied to the concrete document and the identifier `purpose`. -/
theorem findSection_title_resolution_witness :
    findSectionByTitleOrNumber c3Brd "purpose" =
      (((jGetArrD c3Brd "sections").drop
          (if hasDocTitle (jGetArrD c3Brd "sections") then 1 else 0)).findIdx?
          (fun sec => matchRulesTitle (pyStrip (pyLower "purpose")) (jGetStrD sec "title" ""))).map
        (fun i => if hasDocTitle (jGetArrD c3Brd "sections") then 1 + i else i + 1) :=
  findSection_title_resolution.1 c3Brd "purpose" (by decide)

/-- C6 counterexample: the line `0. Hello` matches the header pattern
with captured number 0, which is not in `[1,16]`, yet it starts a new
section (`_convert_brd_text_to_structure` only rejects numbers above
16). -/
theorem convert_starts_section_for_zero :
    genHeaderMatch "0. Hello" = some (0, "Hello") ∧
    convertBrdTextToStructure "0. Hello" = some ⟨[⟨"Hello", []⟩]⟩ ∧
    ¬(1 ≤ 0 ∧ 0 ≤ 16) :=
  ⟨by decide, by decide, by decide⟩

/-- C6 (amended): a nonblank line whose header match captures a number
above 16 never starts a section: the loop state keeps its sections and
open section, and the line is appended to the pending content exactly
when a section is open (it is dropped otherwise). -/
theorem gStep_highNumber_is_content (st : GState) (rawLine : String) (num : Nat) (txt : String)
    (hline : (pyStrip rawLine == "") = false)
    (hmatch : genHeaderMatch (pyStrip rawLine) = some (num, txt))
    (hnum : num > 16) :
    gStep st rawLine = { st with curContent :=
      st.curContent ++ (if st.cur.isSome then [pyStrip rawLine] else []) } := by
  obtain ⟨secs, cur, cc⟩ := st
  unfold gStep
  simp only [hline, Bool.false_eq_true, if_false, hmatch]
  rw [if_pos hnum]
  cases cur <;> simp

/-- Witness for `gStep_highNumber_is_content`: `17. Step 1` inside an
open `Scope` section becomes pending content. -/
theorem gStep_highNumber_witness :
    gStep ⟨[], some ⟨"Scope", []⟩, []⟩ "17. Step 1" =
      ⟨[], some ⟨"Scope", []⟩, ["17. Step 1"]⟩ :=
  gStep_highNumber_is_content ⟨[], some ⟨"Scope", []⟩, []⟩ "17. Step 1" 17 "Step 1"
    (by decide) (by decide) (by decide)

/-- The reverse-chronological confirmation scan skips every message
whose role is not `assistant`. -/
theorem scanLastUpdatedAux_skips (l rest : List Json)
    (h : ∀ u ∈ l, pyLower (jGetStrD u "role" "") ≠ "assistant") :
    scanLastUpdatedAux (l ++ rest) = scanLastUpdatedAux rest := by
  induction l with
  | nil => rfl
  | cons m l ih =>
    have hm : (pyLower (jGetStrD m "role" "") == "assistant") = false := by
      simpa using h m (by simp)
    rw [List.cons_append, scanLastUpdatedAux, hm]
    simp only [Bool.not_false, if_true]
    exact ih (fun u hu => h u (by simp [hu]))

/-- If the confirmation scan succeeds on a single message, it returns
the same answer on that message followed by anything (it stops at the
first hit). -/
theorem scanLastUpdatedAux_cons_hit (msg : Json) (rest : List Json) (n : Nat)
    (h : scanLastUpdatedAux [msg] = some n) :
    scanLastUpdatedAux (msg :: rest) = some n := by
  rw [scanLastUpdatedAux] at h ⊢
  by_cases h1 : (!(pyLower (jGetStrD msg "role" "") == "assistant")) = true
  · rw [if_pos h1] at h
    rw [scanLastUpdatedAux] at h
    exact absurd h (by simp)
  · rw [if_neg h1] at h ⊢
    cases hex : extractMsgText (jGetD msg "content" (Json.str "")) with
    | none =>
      simp only [hex] at h
      rw [scanLastUpdatedAux] at h
      exact absurd h (by simp)
    | some content =>
      simp only [hex] at h ⊢
      by_cases h2 : isUpdateConfirmation content = true
      · rw [if_pos h2] at h ⊢
        cases hre : reSearch confirmQuoteRe content with
        | none =>
          simp only [hre] at h
          rw [scanLastUpdatedAux] at h
          exact absurd h (by simp)
        | some caps => simp only [hre] at h ⊢; exact h
      · rw [if_neg h2] at h
        rw [scanLastUpdatedAux] at h
        exact absurd h (by simp)

/-- C7: whenever the log's most recent assistant event is the update
confirmation `✅ Section (3. Scope) updated successfully` (any later
events being non-assistant), the handler's `show me updated section`
branch derives section 3 from the reverse-chronological scan — the first
match being authoritative — and answers with `handle_show_section` of
section 3. -/
theorem showUpdated_derives_last_confirmation (pre mid : List Json) (brd : Json)
    (hmid : ∀ u ∈ mid, pyLower (jGetStrD u "role" "") ≠ "assistant") :
    scanLastUpdatedAux ((pre ++ c7Confirm :: mid).reverse) = some 3 ∧
    showUpdatedBranch "show me updated section" (pre ++ c7Confirm :: mid) none brd =
      handleShowSection brd 3 := by
  have hscan : scanLastUpdatedAux ((pre ++ c7Confirm :: mid).reverse) = some 3 := by
    rw [List.reverse_append, List.reverse_cons, List.append_assoc]
    rw [scanLastUpdatedAux_skips mid.reverse _ (fun u hu => hmid u (by simpa using hu))]
    exact scanLastUpdatedAux_cons_hit c7Confirm pre.reverse 3 (by decide)
  refine ⟨hscan, ?_⟩
  have hne : (pre ++ c7Confirm :: mid).isEmpty = false := by
    cases pre <;> simp [List.isEmpty]
  unfold showUpdatedBranch
  rw [if_neg (by decide : ¬ truthyNum none = true)]
  simp only [show (pyIn "✅" "show me updated section" ||
      pyIn "updated successfully" (pyLower "show me updated section")) = false from by decide,
    Bool.false_eq_true, if_false, hne, Bool.not_false, Bool.and_self, if_true, hscan,
    truthyNum, Option.getD]
  rw [if_pos (by decide : (!(3 == 0)) = true)]

/-- Witness for `showUpdated_derives_last_confirmation`: a two-event log
ending in the confirmation. -/
theorem showUpdated_derives_last_confirmation_witness :
    showUpdatedBranch "show me updated section" ([c7UserMsg] ++ c7Confirm :: []) none c3Brd =
      handleShowSection c3Brd 3 :=
  (showUpdated_derives_last_confirmation [c7UserMsg] [] c3Brd (by simp)).2

/-- Inserting into the number-sorted list permutes consing. -/
theorem insertByNum_perm (x : Nat × String) (l : List (Nat × String)) :
    (insertByNum x l).Perm (x :: l) := by
  induction l with
  | nil => rfl
  | cons y ys ih =>
    rw [insertByNum]
    by_cases h : y.1 ≤ x.1
    · rw [if_pos h]
      exact (ih.cons y).trans (List.Perm.swap x y ys)
    · rw [if_neg h]

/-- The number sort is a permutation. -/
theorem sortByNum_perm (l : List (Nat × String)) : (sortByNum l).Perm l := by
  induction l with
  | nil => rfl
  | cons x xs ih => exact (insertByNum_perm x (sortByNum xs)).trans (ih.cons x)

/-- Insertion preserves being sorted by section number. -/
theorem insertByNum_sorted (x : Nat × String) (l : List (Nat × String))
    (h : l.Pairwise (fun a b => a.1 ≤ b.1)) :
    (insertByNum x l).Pairwise (fun a b => a.1 ≤ b.1) := by
  induction l with
  | nil => simp [insertByNum]
  | cons y ys ih =>
    rw [List.pairwise_cons] at h
    rw [insertByNum]
    by_cases hc : y.1 ≤ x.1
    · rw [if_pos hc]
      refine List.pairwise_cons.mpr ⟨?_, ih h.2⟩
      intro z hz
      rcases List.mem_cons.mp ((insertByNum_perm x ys).mem_iff.mp hz) with hz | hz
      · rw [hz]; exact hc
      · exact h.1 z hz
    · rw [if_neg hc]
      refine List.pairwise_cons.mpr ⟨?_, List.pairwise_cons.mpr h⟩
      intro z hz
      rcases List.mem_cons.mp hz with hz | hz
      · rw [hz]; omega
      · exact le_trans (by omega) (h.1 z hz)

/-- `sortByNum` sorts by section number. -/
theorem sortByNum_sorted (l : List (Nat × String)) :
    (sortByNum l).Pairwise (fun a b => a.1 ≤ b.1) := by
  induction l with
  | nil => simp [sortByNum]
  | cons x xs ih => exact insertByNum_sorted x (sortByNum xs) ih

/-- The confirmation collector never records the same section number
twice. -/
theorem collectUpdAux_nodup (msgs : List Json) :
    ∀ acc : List (Nat × String), (acc.map Prod.fst).Nodup →
      ((collectUpdAux msgs acc).map Prod.fst).Nodup := by
  induction msgs with
  | nil => intro acc h; exact h
  | cons msg rest ih =>
    intro acc h
    rw [collectUpdAux]
    by_cases h1 : (!(pyLower (jGetStrD msg "role" "") == "assistant")) = true
    · rw [if_pos h1]; exact ih acc h
    · rw [if_neg h1]
      cases hex : extractMsgText (jGetD msg "content" (Json.str "")) with
      | none => exact ih acc h
      | some content =>
        simp only
        by_cases h2 : isUpdateConfirmation content = true
        · rw [if_pos h2]
          cases hre : reSearch confirmOpenRe content with
          | none => exact ih acc h
          | some caps =>
            simp only
            by_cases h3 : (acc.any (fun e =>
                e.1 == digitsToNat (capStr content caps 1).data)) = true
            · rw [if_pos h3]; exact ih acc h
            · rw [if_neg h3]
              refine ih _ ?_
              rw [List.map_append, List.nodup_append]
              refine ⟨h, by simp, ?_⟩
              intro a ha hb
              simp only [List.map_cons, List.map_nil, List.mem_singleton] at hb
              subst hb
              simp only [List.mem_map] at ha
              obtain ⟨p, hp, hpa⟩ := ha
              apply h3
              rw [List.any_eq_true]
              exact ⟨p, hp, by simp [hpa]⟩
        · rw [if_neg h2]; exact ih acc h

/-- C8 (amended): for every log, the collected update confirmations are
deduplicated by section number and presented in ascending section-number
order (not chronologically); in particular a log with confirmations for
sections 3 and 7, in that chronological order, yields `[3, 7]`. -/
theorem allUpdatedSections_sorted_dedup (history : List Json) :
    (allUpdatedSections history).Pairwise (fun a b => a.1 ≤ b.1) ∧
    ((allUpdatedSections history).map Prod.fst).Nodup ∧
    (allUpdatedSections [c7Confirm, c8Confirm7]).map Prod.fst = [3, 7] := by
  refine ⟨sortByNum_sorted _, ?_, by decide⟩
  have hperm := (sortByNum_perm (collectUpdAux history.reverse [])).map Prod.fst
  exact hperm.nodup_iff.mpr (collectUpdAux_nodup history.reverse [] (by simp))

/-- C8 counterexample: a log whose confirmations arrive for section 7
first and section 3 second is presented as `[3, 7]`, not oldest-to-newest
(`[7, 3]`). -/
theorem allUpdatedSections_not_chronological :
    (allUpdatedSections [c8Confirm7, c7Confirm]).map Prod.fst = [3, 7] ∧
    ([3, 7] : List Nat) ≠ [7, 3] :=
  ⟨by decide, by decide⟩

/-- When the cascade (after title resolution) yields no truthy section
number with instruction, and the pattern-5 fallback finds nothing, the
update execution only produces a failure message. -/
theorem executeUpdateFlow_failed_of_noedit (m : String) (brd : Json)
    (ls : Option Nat) (lst : Option String) (resp : String)
    (hnoedit : parsesToNoEdit m brd ls lst = true) :
    ∃ msg, executeUpdateFlow m brd ls lst resp = .failedMsg msg := by
  have h := hnoedit
  rw [parsesToNoEdit, Bool.and_eq_true] at h
  obtain ⟨h1, h2⟩ := h
  rw [Bool.not_eq_true'] at h1
  rw [Option.isNone_iff_eq_none] at h2
  rw [executeUpdateFlow]
  rw [if_neg (by rw [h1]; exact Bool.false_ne_true)]
  rw [h2]
  exact ⟨_, rfl⟩

/-- C9: every message the question heuristic classifies as a question,
that is not `list` or a show command, and from which the edit-pattern
cascade extracts no executable command (no edit verb directed at
content), is routed to the general-question path with the document
left unchanged — even when it contains words like `change` or
`update`. -/
theorem pureQuestion_routes_to_query (m : String) (brd : Json) (history : List Json)
    (ls lu : Option Nat) (lst : Option String) (resp : String)
    (hq : isQuestionMsg m = true)
    (hlist : (pyLower m == "list") = false)
    (hshow : showCond m = false)
    (hnoedit : parsesToNoEdit m brd ls lst = true) :
    (dispatchParsed m brd history ls lst lu resp).routedToQuery = true ∧
    (dispatchParsed m brd history ls lst lu resp).updatedBrd = none := by
  rw [dispatchParsed]
  rw [if_neg (by rw [hlist]; exact Bool.false_ne_true)]
  rw [if_neg (by rw [hshow]; exact Bool.false_ne_true)]
  simp only [hq]
  by_cases he : hasEditWord m = true
  · rw [he]
    simp only [Bool.not_true, Bool.and_false, Bool.false_eq_true, if_false, if_true]
    obtain ⟨msg, hflow⟩ := executeUpdateFlow_failed_of_noedit m brd ls lst resp hnoedit
    rw [hflow]
    exact ⟨rfl, rfl⟩
  · rw [Bool.not_eq_true] at he
    rw [he]
    simp only [Bool.not_false, Bool.and_true, if_true]
    exact ⟨trivial, trivial⟩

/-- Witness for `pureQuestion_routes_to_query`: the two question forms
named by the specification. -/
theorem pureQuestion_routes_to_query_witness :
    ((dispatchParsed "which sections have I updated" c3Brd [] none none none "").routedToQuery
        = true ∧
      (dispatchParsed "which sections have I updated" c3Brd [] none none none "").updatedBrd
        = none) ∧
    ((dispatchParsed "what changes have I made" c3Brd [] none none none "").routedToQuery
        = true ∧
      (dispatchParsed "what changes have I made" c3Brd [] none none none "").updatedBrd
        = none) :=
  ⟨pureQuestion_routes_to_query "which sections have I updated" c3Brd [] none none none ""
      (by decide) (by decide) (by decide) (by decide),
    pureQuestion_routes_to_query "what changes have I made" c3Brd [] none none none ""
      (by decide) (by decide) (by decide) (by decide)⟩

/-- Flushing pending lines only ever appends a paragraph block. -/
theorem flushPara_para (c : GSection) (cc : List String)
    (h : c.content.all blockIsPara = true) :
    (flushPara c cc).content.all blockIsPara = true := by
  rw [flushPara]
  by_cases hc : cc.isEmpty = true
  · rw [if_pos hc]; exact h
  · rw [if_neg hc]; simp [List.all_append, h, blockIsPara]

/-- Opening a new section preserves the paragraphs-only invariant. -/
theorem startNewSection_para (st : GState) (t : String) (h : stParaOnly st = true) :
    stParaOnly (startNewSection st t) = true := by
  obtain ⟨secs, cur, cc⟩ := st
  rw [stParaOnly, Bool.and_eq_true] at h
  obtain ⟨h1, h2⟩ := h
  cases cur with
  | none => simpa [startNewSection, stParaOnly] using h1
  | some c =>
    simp only [Option.all_some] at h2
    simp [startNewSection, stParaOnly, List.all_append, h1, flushPara_para c cc h2]

/-- Each `create_minimal_structure_from_text` loop step preserves the
paragraphs-only invariant. -/
theorem minStep_para (st : GState) (l : String) (h : stParaOnly st = true) :
    stParaOnly (minStep st l) = true := by
  rw [minStep]
  by_cases hb : (pyStrip l == "") = true
  · rw [if_pos hb]; exact h
  · rw [if_neg hb]
    cases hm : reMatch minHeaderRe (pyStrip l) with
    | some caps => exact startNewSection_para st _ h
    | none =>
      simp only
      by_cases hh : (pyStartsWith "##" (pyStrip l) && decide ((pyStrip l).length > 3)) = true
      · rw [if_pos hh]; exact startNewSection_para st _ h
      · rw [if_neg hh]
        obtain ⟨secs, cur, cc⟩ := st
        cases cur with
        | none => exact h
        | some c => exact h

/-- The whole line loop preserves the paragraphs-only invariant. -/
theorem foldl_minStep_para (lines : List String) :
    ∀ st, stParaOnly st = true → stParaOnly (lines.foldl minStep st) = true := by
  induction lines with
  | nil => intro st h; exact h
  | cons l rest ih => intro st h; exact ih _ (minStep_para st l h)

/-- C10: for every input text, `create_minimal_structure_from_text`
returns `None` or a document in which every content block of every
section is a paragraph block — never a bullet list or a table. -/
theorem createMinimal_paragraph_only (brdText : String) :
    (createMinimalStructureFromText brdText).all docParaOnly = true := by
  have h := foldl_minStep_para (pySplitChar '\n' brdText) ⟨[], none, []⟩ (by decide)
  rw [createMinimalStructureFromText]
  rw [stParaOnly, Bool.and_eq_true] at h
  obtain ⟨h1, h2⟩ := h
  cases hcur : ((pySplitChar '\n' brdText).foldl minStep ⟨[], none, []⟩).cur with
  | none =>
    simp only [hcur]
    split
    · rfl
    · simp only [Option.all_some, docParaOnly, h1]
  | some c =>
    rw [hcur] at h2
    simp only [Option.all_some] at h2
    simp only [hcur]
    split
    · rfl
    · simp only [Option.all_some, docParaOnly, List.all_append, List.all_cons, List.all_nil,
        h1, flushPara_para c _ h2, Bool.and_self, Bool.and_true, Bool.true_and]
